import Mathlib

/-!
A shallow embedding of the broker protocol engine from `src/auth.rs`
(himmelblau-idm/microsoft-authentication-library-for-rust), together with
theorems settling the specification claims about it.

Modelling conventions:
* Rust `Result<T, MsalError>` becomes `Except MsalError T`.
* Byte vectors (`Vec<u8>`) become `List Nat` (each entry a byte value).
* The hardware security capability (`kanidm_hsm_crypto`), the JOSE crypto
  (`compact_jwt`), openssl, the discovery collaborator, the UUID parser and
  the text-level JSON lexer (`serde_json` text to `Value`) are external
  collaborators per spec sections 1 and 6; they are modelled as records of
  abstract functions over which the theorems quantify.
* The struct-level JSON deserialization semantics (which fields are
  required, defaults, string-or-struct decoding) are modelled concretely
  from the serde attributes on the structs in `src/auth.rs`.
-/

namespace Msal

/-- Bytes are modelled as lists of naturals. -/
abbrev Bytes := List Nat

/-- JSON values, modelling `serde_json::Value`. -/
inductive Json where
  | null : Json
  | bool : Bool → Json
  | num : Int → Json
  | str : String → Json
  | arr : List Json → Json
  | obj : List (String × Json) → Json

/-- First-match association-list lookup over the fields of a JSON object,
modelling how serde resolves a field by name in a JSON map. -/
def jlookup (kvs : List (String × Json)) (k : String) : Option Json :=
  match kvs with
  | [] => none
  | (k2, v) :: rest => if k2 = k then some v else jlookup rest k

/-- Models `serde_json::Value::get` on a key: `some` for object member,
`none` for a missing member or a non-object. -/
def Json.get (j : Json) (k : String) : Option Json :=
  match j with
  | Json.obj kvs => jlookup kvs k
  | _ => none

/-- Models `Value::index` (`json["k"]`): member value, or `Null` when the
key is absent or the value is not an object. -/
def jsonIndex (j : Json) (k : String) : Json :=
  match j.get k with
  | some v => v
  | none => Json.null

/-- Base64 URL-safe alphabet value of a character (`base64::URL_SAFE_NO_PAD`). -/
def b64Val (c : Char) : Option Nat :=
  let n := c.toNat
  if 65 ≤ n ∧ n ≤ 90 then some (n - 65)
  else if 97 ≤ n ∧ n ≤ 122 then some (n - 71)
  else if 48 ≤ n ∧ n ≤ 57 then some (n + 4)
  else if n = 45 then some 62
  else if n = 95 then some 63
  else none

/-- Regroup 6-bit values into bytes; rejects a trailing group of one and
non-zero trailing bits, as the `base64` crate's no-pad decoder does. -/
def b64Groups : List Nat → Option Bytes
  | [] => some []
  | [_] => none
  | [a, b] => if b % 16 = 0 then some [a * 4 + b / 16] else none
  | [a, b, c] =>
      if c % 4 = 0 then some [a * 4 + b / 16, b % 16 * 16 + c / 4] else none
  | a :: b :: c :: d :: rest =>
      match b64Groups rest with
      | some tail =>
          some ((a * 4 + b / 16) :: (b % 16 * 16 + c / 4) :: (c % 4 * 64 + d) :: tail)
      | none => none

/-- Models `URL_SAFE_NO_PAD.decode`. -/
def base64UrlNoPadDecode (s : String) : Option Bytes :=
  match s.data.mapM b64Val with
  | some vals => b64Groups vals
  | none => none

/-- One step of UTF-8 decoding, modelling the validation done by Rust's
`String::from_utf8` (continuation ranges, no overlongs, no surrogates). -/
def utf8DecodeAux : Bytes → Option (List Char)
  | [] => some []
  | b :: rest =>
    if b < 0x80 then
      match utf8DecodeAux rest with
      | some cs => some (Char.ofNat b :: cs)
      | none => none
    else if b < 0xC2 then none
    else if b < 0xE0 then
      match rest with
      | b2 :: rest2 =>
        if 0x80 ≤ b2 ∧ b2 < 0xC0 then
          match utf8DecodeAux rest2 with
          | some cs => some (Char.ofNat ((b - 0xC0) * 64 + (b2 - 0x80)) :: cs)
          | none => none
        else none
      | [] => none
    else if b < 0xF0 then
      match rest with
      | b2 :: b3 :: rest2 =>
        if (if b = 0xE0 then 0xA0 else 0x80) ≤ b2 ∧
            b2 < (if b = 0xED then 0xA0 else 0xC0) ∧
            0x80 ≤ b3 ∧ b3 < 0xC0 then
          match utf8DecodeAux rest2 with
          | some cs =>
              some (Char.ofNat ((b - 0xE0) * 4096 + (b2 - 0x80) * 64 + (b3 - 0x80)) :: cs)
          | none => none
        else none
      | _ => none
    else if b < 0xF5 then
      match rest with
      | b2 :: b3 :: b4 :: rest2 =>
        if (if b = 0xF0 then 0x90 else 0x80) ≤ b2 ∧
            b2 < (if b = 0xF4 then 0x90 else 0xC0) ∧
            0x80 ≤ b3 ∧ b3 < 0xC0 ∧ 0x80 ≤ b4 ∧ b4 < 0xC0 then
          match utf8DecodeAux rest2 with
          | some cs =>
              some (Char.ofNat ((b - 0xF0) * 262144 + (b2 - 0x80) * 4096 +
                (b3 - 0x80) * 64 + (b4 - 0x80)) :: cs)
          | none => none
        else none
      | _ => none
    else none

/-- Models `String::from_utf8`. -/
def utf8Decode (bs : Bytes) : Option String :=
  match utf8DecodeAux bs with
  | some cs => some (String.mk cs)
  | none => none

/-- Split a character list at every occurrence of a separator character. -/
def splitOnChar (c : Char) : List Char → List (List Char)
  | [] => [[]]
  | a :: rest =>
    if a = c then [] :: splitOnChar c rest
    else
      match splitOnChar c rest with
      | h :: t => (a :: h) :: t
      | [] => [[a]]

/-- The second dot-separated segment of a compact JWT, as selected by
`splitn(3, '.')` followed by two `next()` calls: the header is always
present, and the payload exists exactly when the string contains a dot. -/
def payloadSegment (s : String) : Option String :=
  match (splitOnChar (Char.ofNat 46) s.data).get? 1 with
  | some cs => some (String.mk cs)
  | none => none

/-- Decimal digit value. -/
def decDigit (c : Char) : Option Nat :=
  let n := c.toNat
  if 48 ≤ n ∧ n ≤ 57 then some (n - 48) else none

/-- Models `str::parse::<uN>` for a plain decimal string: nonempty, all
digits (sign handling is irrelevant to the claims). Overflow checks are
applied at the call sites. -/
def parseDec (s : String) : Option Nat :=
  if s.data.isEmpty then none
  else
    s.data.foldlM (fun acc c =>
      match decDigit c with
      | some d => some (acc * 10 + d)
      | none => none) 0

/-- Modelled from the spec: `crate::error::ErrorResponse` (section 7), the
structured server error body. Its declaration lives outside `src/`; `auth.rs`
treats it as opaque, so it is modelled as an opaque record. -/
structure ErrorResponse where
  raw : String
deriving DecidableEq

/-- Modelled from the spec: `crate::error::MsalError` (section 7). The enum
itself is declared outside `src/`, but every constructor below is applied by
name in `src/auth.rs`. -/
inductive MsalError where
  | RequestFailed : String → MsalError
  | InvalidJson : String → MsalError
  | InvalidParse : String → MsalError
  | InvalidBase64 : String → MsalError
  | AcquireTokenFailed : ErrorResponse → MsalError
  | TPMFail : String → MsalError
  | CryptoFail : String → MsalError
  | ConfigError : String → MsalError
  | URLFormatFailed : String → MsalError
  | GeneralFailure : String → MsalError
deriving DecidableEq

/-- True exactly on the `GeneralFailure` error kind. -/
def MsalError.isGeneralFailure : MsalError → Bool
  | MsalError.GeneralFailure _ => true
  | _ => false

/-- Models `uuid::Uuid` opaquely by its canonical text form; validity is
delegated to the external parser in `ParseEnv`. -/
structure Uuid where
  val : String
deriving DecidableEq

/-- `IdToken` from `src/auth.rs` lines 102-110. -/
structure IdToken where
  name : String
  oid : String
  preferred_username : Option String
  puid : Option String
  tenant_region_scope : Option String
  tid : String
deriving DecidableEq

/-- `ClientInfo` from `src/auth.rs` lines 179-183. -/
structure ClientInfo where
  uid : Option Uuid
  utid : Option Uuid
deriving DecidableEq

/-- `ClientInfo::default()` (derived `Default`). -/
def ClientInfo.default : ClientInfo := { uid := none, utid := none }

/-- `TGT` from `src/auth.rs` lines 440-457, with the serde-renamed JSON keys
noted at the parser. -/
structure TGT where
  client_key : Option String
  key_type : Nat
  error : Option String
  message_buffer : Option String
  realm : Option String
  sn : Option String
  cn : Option String
  session_key_type : Nat
  account_type : Nat
deriving DecidableEq

/-- `TGT::default()` (derived `Default`): all options empty, all counters 0. -/
def TGT.default : TGT :=
  { client_key := none, key_type := 0, error := none, message_buffer := none,
    realm := none, sn := none, cn := none, session_key_type := 0, account_type := 0 }

/-- Serialization tokens: the image of `serde_json::to_vec` is modelled as a
token stream rather than raw JSON text, since byte-level JSON printing is
out of scope (spec section 1); what matters to the claims is that encoding
is injective and decoding is its inverse, which is proved below. -/
inductive SerTok where
  | nat : Nat → SerTok
  | str : String → SerTok
  | tag : Bool → SerTok
deriving DecidableEq

/-- A serialized value. -/
abbrev Ser := List SerTok

/-- `kanidm_hsm_crypto::SealedData`: opaque ciphertext blob. -/
structure SealedData where
  data : Ser
deriving DecidableEq

/-- `PrimaryRefreshToken` from `src/auth.rs` lines 460-482. -/
structure PrimaryRefreshToken where
  token_type : String
  expires_in : String
  ext_expires_in : String
  expires_on : String
  refresh_token : String
  refresh_token_expires_in : Nat
  session_key_jwe : Option String
  id_token : IdToken
  client_info : ClientInfo
  device_tenant_id : Option String
  tgt_ad : TGT
  tgt_cloud : TGT
  kerberos_top_level_names : Option String
deriving DecidableEq

/-- `UserToken` from `src/auth.rs` lines 234-253 (broker feature: carries an
optional sealed PRT). -/
structure UserToken where
  token_type : String
  scope : Option String
  expires_in : Nat
  ext_expires_in : Nat
  access_token : Option String
  refresh_token : String
  id_token : IdToken
  client_info : ClientInfo
  prt : Option SealedData
deriving DecidableEq

/-- External parsing collaborators: the text-level JSON lexer
(`serde_json::from_str` up to `Value`) and the UUID parser, both out of
scope per spec section 1. -/
structure ParseEnv where
  strToJson : String → Option Json
  uuidParse : String → Option Uuid
  sealedDataParse : Json → Option SealedData

/-- serde: required field of JSON-string type. -/
def reqStr (kvs : List (String × Json)) (k : String) : Except String String :=
  match jlookup kvs k with
  | some (Json.str s) => Except.ok s
  | some _ => Except.error ("invalid type for field " ++ k)
  | none => Except.error ("missing field " ++ k)

/-- serde: `Option<String>` field — absent or `null` becomes `none`. -/
def optStr (kvs : List (String × Json)) (k : String) : Except String (Option String) :=
  match jlookup kvs k with
  | some (Json.str s) => Except.ok (some s)
  | some Json.null => Except.ok none
  | some _ => Except.error ("invalid type for field " ++ k)
  | none => Except.ok none

/-- serde: required `u32` field from a JSON number. -/
def reqU32 (kvs : List (String × Json)) (k : String) : Except String Nat :=
  match jlookup kvs k with
  | some (Json.num n) =>
      if 0 ≤ n ∧ n < 4294967296 then Except.ok n.toNat
      else Except.error ("u32 out of range for field " ++ k)
  | some _ => Except.error ("invalid type for field " ++ k)
  | none => Except.error ("missing field " ++ k)

/-- serde: required `u64` field from a JSON number. -/
def reqU64 (kvs : List (String × Json)) (k : String) : Except String Nat :=
  match jlookup kvs k with
  | some (Json.num n) =>
      if 0 ≤ n ∧ n < 18446744073709551616 then Except.ok n.toNat
      else Except.error ("u64 out of range for field " ++ k)
  | some _ => Except.error ("invalid type for field " ++ k)
  | none => Except.error ("missing field " ++ k)

/-- `decode_number_from_string` (`src/auth.rs` lines 217-232): a `u32` that
may arrive as a JSON number (via `as_u64` then an `as u32` truncation) or as
a decimal string. -/
def numberFromString (kvs : List (String × Json)) (k : String) : Except String Nat :=
  match jlookup kvs k with
  | some (Json.num n) =>
      if 0 ≤ n then Except.ok (n.toNat % 4294967296)
      else Except.error "Expected number or string"
  | some (Json.str s) =>
      match parseDec s with
      | some m => if m < 4294967296 then Except.ok m else Except.error "number too large"
      | none => Except.error "invalid digit found in string"
  | some _ => Except.error "Expected number or string"
  | none => Except.error ("missing field " ++ k)

/-- Derived deserialization of the fields of `IdToken` from a JSON object. -/
def parseIdTokenStruct (kvs : List (String × Json)) : Except String IdToken :=
  match reqStr kvs "name" with
  | Except.error e => Except.error e
  | Except.ok name =>
  match reqStr kvs "oid" with
  | Except.error e => Except.error e
  | Except.ok oid =>
  match optStr kvs "preferred_username" with
  | Except.error e => Except.error e
  | Except.ok preferred_username =>
  match optStr kvs "puid" with
  | Except.error e => Except.error e
  | Except.ok puid =>
  match optStr kvs "tenant_region_scope" with
  | Except.error e => Except.error e
  | Except.ok tenant_region_scope =>
  match reqStr kvs "tid" with
  | Except.error e => Except.error e
  | Except.ok tid =>
      Except.ok { name, oid, preferred_username, puid, tenant_region_scope, tid }

/-- `IdToken::from_str` (`src/auth.rs` lines 148-177): take the second
segment of the compact JWT, base64-decode it, UTF-8-decode it, and parse the
JSON payload as an `IdToken`. -/
def IdToken.fromStr (env : ParseEnv) (s : String) : Except MsalError IdToken :=
  match payloadSegment s with
  | none => Except.error (MsalError.InvalidParse "Failed parsing id_token payload")
  | some payload_b64 =>
    match base64UrlNoPadDecode payload_b64 with
    | none => Except.error (MsalError.InvalidParse "Failed parsing id_token")
    | some bytes =>
      match utf8Decode bytes with
      | none => Except.error (MsalError.InvalidParse "Failed parsing id_token")
      | some payload_str =>
        match env.strToJson payload_str with
        | none => Except.error (MsalError.InvalidParse "Failed parsing id_token from json")
        | some (Json.obj kvs) =>
          match parseIdTokenStruct kvs with
          | Except.ok t => Except.ok t
          | Except.error e =>
              Except.error (MsalError.InvalidParse ("Failed parsing id_token from json: " ++ e))
        | some _ => Except.error (MsalError.InvalidParse "Failed parsing id_token from json")

/-- `decode_string_or_struct` (`src/auth.rs` lines 112-146) instantiated at
`IdToken`: a string is parsed with `IdToken::from_str`, a map with the
derived deserializer, anything else is rejected. -/
def parseIdTokenValue (env : ParseEnv) : Json → Except String IdToken
  | Json.str s =>
      match IdToken.fromStr env s with
      | Except.ok t => Except.ok t
      | Except.error _ => Except.error "Failed to parse string"
  | Json.obj kvs => parseIdTokenStruct kvs
  | _ => Except.error "string or map"

/-- Display-then-`trim_matches` of a `Value`, as `ClientInfo::from_str` does
on `client_info["uid"]`; only the cases reachable with string/null/number
members are rendered faithfully. -/
def jsonDisplayTrimmed : Json → String
  | Json.null => "null"
  | Json.str s => s
  | Json.num n => toString n
  | Json.bool b => if b then "true" else "false"
  | Json.arr _ => "[...]"
  | Json.obj _ => "\x7b...\x7d"

/-- `ClientInfo::from_str` (`src/auth.rs` lines 185-215): base64-decode,
UTF-8-decode, JSON-parse, then read `uid`/`utid` by indexing and UUID-parse
their displayed text. -/
def ClientInfo.fromStr (env : ParseEnv) (s : String) : Except MsalError ClientInfo :=
  match base64UrlNoPadDecode s with
  | none => Except.error (MsalError.InvalidParse "Failed parsing client_info")
  | some bytes =>
    match utf8Decode bytes with
    | none => Except.error (MsalError.InvalidParse "Failed parsing client_info")
    | some str =>
      match env.strToJson str with
      | none => Except.error (MsalError.InvalidParse "Failed parsing client_info")
      | some j =>
        match env.uuidParse (jsonDisplayTrimmed (jsonIndex j "uid")) with
        | none => Except.error (MsalError.InvalidParse "Failed parsing client_info")
        | some uid =>
          match env.uuidParse (jsonDisplayTrimmed (jsonIndex j "utid")) with
          | none => Except.error (MsalError.InvalidParse "Failed parsing client_info")
          | some utid => Except.ok { uid := some uid, utid := some utid }

/-- serde: `Option<Uuid>` field of the derived `ClientInfo` deserializer. -/
def optUuid (env : ParseEnv) (kvs : List (String × Json)) (k : String) :
    Except String (Option Uuid) :=
  match jlookup kvs k with
  | some (Json.str s) =>
      match env.uuidParse s with
      | some u => Except.ok (some u)
      | none => Except.error ("UUID parsing failed for field " ++ k)
  | some Json.null => Except.ok none
  | some _ => Except.error ("invalid type for field " ++ k)
  | none => Except.ok none

/-- Derived deserialization of `ClientInfo` from a JSON object. -/
def parseClientInfoStruct (env : ParseEnv) (kvs : List (String × Json)) :
    Except String ClientInfo :=
  match optUuid env kvs "uid" with
  | Except.error e => Except.error e
  | Except.ok uid =>
    match optUuid env kvs "utid" with
    | Except.error e => Except.error e
    | Except.ok utid => Except.ok { uid, utid }

/-- `decode_string_or_struct` instantiated at `ClientInfo`. -/
def parseClientInfoValue (env : ParseEnv) : Json → Except String ClientInfo
  | Json.str s =>
      match ClientInfo.fromStr env s with
      | Except.ok c => Except.ok c
      | Except.error _ => Except.error "Failed to parse string"
  | Json.obj kvs => parseClientInfoStruct env kvs
  | _ => Except.error "string or map"

/-- Derived deserialization of `TGT` using the serde-renamed keys
(`clientKey`, `keyType`, `messageBuffer`, `sessionKeyType`, `accountType`). -/
def parseTGTStruct (kvs : List (String × Json)) : Except String TGT :=
  match optStr kvs "clientKey" with
  | Except.error e => Except.error e
  | Except.ok client_key =>
  match reqU32 kvs "keyType" with
  | Except.error e => Except.error e
  | Except.ok key_type =>
  match optStr kvs "error" with
  | Except.error e => Except.error e
  | Except.ok error =>
  match optStr kvs "messageBuffer" with
  | Except.error e => Except.error e
  | Except.ok message_buffer =>
  match optStr kvs "realm" with
  | Except.error e => Except.error e
  | Except.ok realm =>
  match optStr kvs "sn" with
  | Except.error e => Except.error e
  | Except.ok sn =>
  match optStr kvs "cn" with
  | Except.error e => Except.error e
  | Except.ok cn =>
  match reqU32 kvs "sessionKeyType" with
  | Except.error e => Except.error e
  | Except.ok session_key_type =>
  match reqU32 kvs "accountType" with
  | Except.error e => Except.error e
  | Except.ok account_type =>
      Except.ok { client_key, key_type, error, message_buffer, realm, sn, cn,
                  session_key_type, account_type }

/-- `TGT::from_str` (`src/auth.rs` lines 433-438): `json_from_str`. -/
def TGT.fromStr (env : ParseEnv) (s : String) : Except MsalError TGT :=
  match env.strToJson s with
  | some (Json.obj kvs) =>
      match parseTGTStruct kvs with
      | Except.ok t => Except.ok t
      | Except.error e => Except.error (MsalError.InvalidParse ("Failed parsing tgt: " ++ e))
  | some _ => Except.error (MsalError.InvalidParse "Failed parsing tgt")
  | none => Except.error (MsalError.InvalidParse "Failed parsing tgt")

/-- `decode_string_or_struct` instantiated at `TGT`. -/
def parseTGTValue (env : ParseEnv) : Json → Except String TGT
  | Json.str s =>
      match TGT.fromStr env s with
      | Except.ok t => Except.ok t
      | Except.error _ => Except.error "Failed to parse string"
  | Json.obj kvs => parseTGTStruct kvs
  | _ => Except.error "string or map"

/-- Deserialization of `PrimaryRefreshToken` as derived from the struct and
its serde attributes (`src/auth.rs` lines 460-482): plain required strings,
a `u64`, optional strings, a required string-or-struct `id_token`, and
defaulting string-or-struct `client_info`, `tgt_ad`, `tgt_cloud`. -/
def parsePrt (env : ParseEnv) : Json → Except String PrimaryRefreshToken
  | Json.obj kvs =>
    (match reqStr kvs "token_type" with
    | Except.error e => Except.error e
    | Except.ok token_type =>
    match reqStr kvs "expires_in" with
    | Except.error e => Except.error e
    | Except.ok expires_in =>
    match reqStr kvs "ext_expires_in" with
    | Except.error e => Except.error e
    | Except.ok ext_expires_in =>
    match reqStr kvs "expires_on" with
    | Except.error e => Except.error e
    | Except.ok expires_on =>
    match reqStr kvs "refresh_token" with
    | Except.error e => Except.error e
    | Except.ok refresh_token =>
    match reqU64 kvs "refresh_token_expires_in" with
    | Except.error e => Except.error e
    | Except.ok refresh_token_expires_in =>
    match optStr kvs "session_key_jwe" with
    | Except.error e => Except.error e
    | Except.ok session_key_jwe =>
    match (match jlookup kvs "id_token" with
           | none => Except.error "missing field id_token"
           | some v => parseIdTokenValue env v) with
    | Except.error e => Except.error e
    | Except.ok id_token =>
    match (match jlookup kvs "client_info" with
           | none => Except.ok ClientInfo.default
           | some v => parseClientInfoValue env v) with
    | Except.error e => Except.error e
    | Except.ok client_info =>
    match optStr kvs "device_tenant_id" with
    | Except.error e => Except.error e
    | Except.ok device_tenant_id =>
    match (match jlookup kvs "tgt_ad" with
           | none => Except.ok TGT.default
           | some v => parseTGTValue env v) with
    | Except.error e => Except.error e
    | Except.ok tgt_ad =>
    match (match jlookup kvs "tgt_cloud" with
           | none => Except.ok TGT.default
           | some v => parseTGTValue env v) with
    | Except.error e => Except.error e
    | Except.ok tgt_cloud =>
    match optStr kvs "kerberos_top_level_names" with
    | Except.error e => Except.error e
    | Except.ok kerberos_top_level_names =>
        Except.ok { token_type, expires_in, ext_expires_in, expires_on,
                    refresh_token, refresh_token_expires_in, session_key_jwe,
                    id_token, client_info, device_tenant_id, tgt_ad, tgt_cloud,
                    kerberos_top_level_names })
  | _ => Except.error "invalid type: expected a map"

/-- Deserialization of `UserToken` as derived from the struct and its serde
attributes (`src/auth.rs` lines 234-253). The `prt` field is an
`Option<SealedData>`: an absent or null member is `none`, and a present one
is deserialized by `SealedData`'s own `Deserialize` impl, which belongs to
the external hardware-capability crate and is therefore modelled by the
`sealedDataParse` collaborator of `ParseEnv`. -/
def parseUserToken (env : ParseEnv) : Json → Except String UserToken
  | Json.obj kvs =>
    (match reqStr kvs "token_type" with
    | Except.error e => Except.error e
    | Except.ok token_type =>
    match optStr kvs "scope" with
    | Except.error e => Except.error e
    | Except.ok scope =>
    match numberFromString kvs "expires_in" with
    | Except.error e => Except.error e
    | Except.ok expires_in =>
    match numberFromString kvs "ext_expires_in" with
    | Except.error e => Except.error e
    | Except.ok ext_expires_in =>
    match optStr kvs "access_token" with
    | Except.error e => Except.error e
    | Except.ok access_token =>
    match reqStr kvs "refresh_token" with
    | Except.error e => Except.error e
    | Except.ok refresh_token =>
    match (match jlookup kvs "id_token" with
           | none => Except.error "missing field id_token"
           | some v => parseIdTokenValue env v) with
    | Except.error e => Except.error e
    | Except.ok id_token =>
    match (match jlookup kvs "client_info" with
           | none => Except.ok ClientInfo.default
           | some v => parseClientInfoValue env v) with
    | Except.error e => Except.error e
    | Except.ok client_info =>
    match jlookup kvs "prt" with
    | none =>
        Except.ok { token_type, scope, expires_in, ext_expires_in, access_token,
                    refresh_token, id_token, client_info, prt := none }
    | some Json.null =>
        Except.ok { token_type, scope, expires_in, ext_expires_in, access_token,
                    refresh_token, id_token, client_info, prt := none }
    | some v =>
        match env.sealedDataParse v with
        | some sd =>
            Except.ok { token_type, scope, expires_in, ext_expires_in,
                        access_token, refresh_token, id_token, client_info,
                        prt := some sd }
        | none => Except.error "invalid value for field prt")
  | _ => Except.error "invalid type: expected a map"

/-- `UserToken::spn` (`src/auth.rs` lines 272-308): prefer the id_token's
`preferred_username`; otherwise extract the `upn` claim from the
access_token's JWT payload; each decoding stage keeps its own error kind. -/
def UserToken.spn (env : ParseEnv) (tok : UserToken) : Except MsalError String :=
  match tok.id_token.preferred_username with
  | some spn => Except.ok spn
  | none =>
    match tok.access_token with
    | some access_token =>
      match payloadSegment access_token with
      | none => Except.error (MsalError.InvalidParse "Payload not present")
      | some payload_b64 =>
        match base64UrlNoPadDecode payload_b64 with
        | none => Except.error (MsalError.InvalidBase64 "invalid base64")
        | some bytes =>
          match utf8Decode bytes with
          | none => Except.error (MsalError.InvalidParse "invalid utf-8 sequence")
          | some s =>
            match env.strToJson s with
            | none => Except.error (MsalError.InvalidJson s)
            | some payload =>
              match payload.get "upn" with
              | some (Json.str upn) => Except.ok upn
              | some _ =>
                  Except.error (MsalError.GeneralFailure "No spn available for UserToken")
              | none =>
                  Except.error (MsalError.GeneralFailure "No spn available for UserToken")
    | none => Except.error (MsalError.GeneralFailure "No spn available for UserToken")

/-! ### Canonical serialization of the PRT (sealing layer input)

`seal_user_prt` serializes the PRT with `serde_json::to_vec` and
`unseal_user_prt` recovers it with `serde_json::from_slice`. The byte-level
JSON text is out of scope (spec section 1); the model keeps what the claims
depend on: serialization covers every field including secrets, is injective,
and deserialization is its inverse. -/

def encStr (s : String) : Ser := [SerTok.str s]

def encNat (n : Nat) : Ser := [SerTok.nat n]

def encOptStr : Option String → Ser
  | none => [SerTok.tag false]
  | some s => SerTok.tag true :: encStr s

def encOptUuid : Option Uuid → Ser
  | none => [SerTok.tag false]
  | some u => SerTok.tag true :: encStr u.val

def encIdToken (t : IdToken) : Ser :=
  encStr t.name ++ encStr t.oid ++ encOptStr t.preferred_username ++
  encOptStr t.puid ++ encOptStr t.tenant_region_scope ++ encStr t.tid

def encClientInfo (c : ClientInfo) : Ser :=
  encOptUuid c.uid ++ encOptUuid c.utid

def encTGT (t : TGT) : Ser :=
  encOptStr t.client_key ++ encNat t.key_type ++ encOptStr t.error ++
  encOptStr t.message_buffer ++ encOptStr t.realm ++ encOptStr t.sn ++
  encOptStr t.cn ++ encNat t.session_key_type ++ encNat t.account_type

/-- Models `serde_json::to_vec` on a `PrimaryRefreshToken`; total because
serialization of this struct cannot fail. -/
def encodePrt (p : PrimaryRefreshToken) : Ser :=
  encStr p.token_type ++ encStr p.expires_in ++ encStr p.ext_expires_in ++
  encStr p.expires_on ++ encStr p.refresh_token ++
  encNat p.refresh_token_expires_in ++ encOptStr p.session_key_jwe ++
  encIdToken p.id_token ++ encClientInfo p.client_info ++
  encOptStr p.device_tenant_id ++ encTGT p.tgt_ad ++ encTGT p.tgt_cloud ++
  encOptStr p.kerberos_top_level_names

def dStr : Ser → Option (String × Ser)
  | SerTok.str s :: r => some (s, r)
  | _ => none

def dNat : Ser → Option (Nat × Ser)
  | SerTok.nat n :: r => some (n, r)
  | _ => none

def dOptStr : Ser → Option (Option String × Ser)
  | SerTok.tag false :: r => some (none, r)
  | SerTok.tag true :: r =>
      match dStr r with
      | some (s, r2) => some (some s, r2)
      | none => none
  | _ => none

def dOptUuid : Ser → Option (Option Uuid × Ser)
  | SerTok.tag false :: r => some (none, r)
  | SerTok.tag true :: r =>
      match dStr r with
      | some (s, r2) => some (some (Uuid.mk s), r2)
      | none => none
  | _ => none

def dIdToken (r : Ser) : Option (IdToken × Ser) :=
  match dStr r with
  | none => none
  | some (name, r) =>
  match dStr r with
  | none => none
  | some (oid, r) =>
  match dOptStr r with
  | none => none
  | some (preferred_username, r) =>
  match dOptStr r with
  | none => none
  | some (puid, r) =>
  match dOptStr r with
  | none => none
  | some (tenant_region_scope, r) =>
  match dStr r with
  | none => none
  | some (tid, r) =>
      some ({ name, oid, preferred_username, puid, tenant_region_scope, tid }, r)

def dClientInfo (r : Ser) : Option (ClientInfo × Ser) :=
  match dOptUuid r with
  | none => none
  | some (uid, r) =>
  match dOptUuid r with
  | none => none
  | some (utid, r) => some ({ uid, utid }, r)

def dTGT (r : Ser) : Option (TGT × Ser) :=
  match dOptStr r with
  | none => none
  | some (client_key, r) =>
  match dNat r with
  | none => none
  | some (key_type, r) =>
  match dOptStr r with
  | none => none
  | some (error, r) =>
  match dOptStr r with
  | none => none
  | some (message_buffer, r) =>
  match dOptStr r with
  | none => none
  | some (realm, r) =>
  match dOptStr r with
  | none => none
  | some (sn, r) =>
  match dOptStr r with
  | none => none
  | some (cn, r) =>
  match dNat r with
  | none => none
  | some (session_key_type, r) =>
  match dNat r with
  | none => none
  | some (account_type, r) =>
      some ({ client_key, key_type, error, message_buffer, realm, sn, cn,
              session_key_type, account_type }, r)

def decodePrtAux (r : Ser) : Option (PrimaryRefreshToken × Ser) :=
  match dStr r with
  | none => none
  | some (token_type, r) =>
  match dStr r with
  | none => none
  | some (expires_in, r) =>
  match dStr r with
  | none => none
  | some (ext_expires_in, r) =>
  match dStr r with
  | none => none
  | some (expires_on, r) =>
  match dStr r with
  | none => none
  | some (refresh_token, r) =>
  match dNat r with
  | none => none
  | some (refresh_token_expires_in, r) =>
  match dOptStr r with
  | none => none
  | some (session_key_jwe, r) =>
  match dIdToken r with
  | none => none
  | some (id_token, r) =>
  match dClientInfo r with
  | none => none
  | some (client_info, r) =>
  match dOptStr r with
  | none => none
  | some (device_tenant_id, r) =>
  match dTGT r with
  | none => none
  | some (tgt_ad, r) =>
  match dTGT r with
  | none => none
  | some (tgt_cloud, r) =>
  match dOptStr r with
  | none => none
  | some (kerberos_top_level_names, r) =>
      some ({ token_type, expires_in, ext_expires_in, expires_on, refresh_token,
              refresh_token_expires_in, session_key_jwe, id_token, client_info,
              device_tenant_id, tgt_ad, tgt_cloud, kerberos_top_level_names }, r)

/-- Models `serde_json::from_slice::<PrimaryRefreshToken>`: the whole input
must be consumed. -/
def decodePrt (r : Ser) : Option PrimaryRefreshToken :=
  match decodePrtAux r with
  | some (p, []) => some p
  | _ => none

/-! ### Binary Key Encoder -/

/-- `BcryptRsaKeyBlob` (`src/auth.rs` lines 923-929). -/
structure BcryptRsaKeyBlob where
  bit_length : Nat
  exponent : Bytes
  modulus : Bytes

/-- `BcryptRsaKeyBlob::new` (`src/auth.rs` lines 933-940). -/
def BcryptRsaKeyBlob.new (bit_length : Nat) (exponent modulus : Bytes) :
    BcryptRsaKeyBlob :=
  { bit_length, exponent, modulus }

/-- Little-endian byte encoding of a `u32` (`u32::to_le_bytes`). -/
def u32le (n : Nat) : Bytes :=
  [n % 256, n / 256 % 256, n / 65536 % 256, n / 16777216 % 256]

/-- Little-endian read-back of 4 bytes. -/
def fromLe32 : Bytes → Nat
  | [a, b, c, d] => a + 256 * b + 65536 * c + 16777216 * d
  | _ => 0

/-- The `b"RSA1"` magic. -/
def RSA1_MAGIC : Bytes := [0x52, 0x53, 0x41, 0x31]

/-- `TryInto<Vec<u8>> for BcryptRsaKeyBlob` (`src/auth.rs` lines 942-969):
magic, bit length, exponent length, modulus length, two reserved zero
prime-length fields, then the raw exponent and modulus bytes; fails when a
length does not fit in a `u32` (bit_length is a `u32` by type). -/
def BcryptRsaKeyBlob.try_into (b : BcryptRsaKeyBlob) : Except MsalError Bytes :=
  if b.exponent.length < 4294967296 then
    if b.modulus.length < 4294967296 then
      Except.ok (RSA1_MAGIC ++ u32le b.bit_length ++ u32le b.exponent.length ++
        u32le b.modulus.length ++ u32le 0 ++ u32le 0 ++ b.exponent ++ b.modulus)
    else Except.error (MsalError.GeneralFailure "Modulus len into u32 failed")
  else Except.error (MsalError.GeneralFailure "Exponent len into u32 failed")

/-! ### Hardware security capability and broker state -/

/-- Opaque machine-secret handle (`kanidm_hsm_crypto::MachineKey`). -/
structure MachineKey where
  id : Nat
deriving DecidableEq

/-- Opaque loadable transport-key handle (`LoadableMsOapxbcRsaKey`). -/
structure LoadableMsOapxbcRsaKey where
  id : Nat
deriving DecidableEq

/-- Opaque loaded transport key (`MsOapxbcRsaKey`). -/
structure MsOapxbcRsaKey where
  id : Nat
deriving DecidableEq

/-- Opaque loadable identity-key handle (`LoadableIdentityKey`). -/
structure LoadableIdentityKey where
  id : Nat
deriving DecidableEq

/-- Opaque loaded identity key (`IdentityKey`). -/
structure IdentityKey where
  id : Nat
deriving DecidableEq

/-- The hardware security capability (`kanidm_hsm_crypto::Tpm`), an external
collaborator (spec sections 2, 6); each operation is an abstract function
whose outcome the theorems quantify over. Errors are their debug-formatted
text. -/
structure Tpm where
  identity_key_create : MachineKey → Except String LoadableIdentityKey
  msoapxbc_rsa_key_create : MachineKey → Except String LoadableMsOapxbcRsaKey
  identity_key_load : MachineKey → LoadableIdentityKey → Except String IdentityKey
  msoapxbc_rsa_key_load :
    MachineKey → LoadableMsOapxbcRsaKey → Except String MsOapxbcRsaKey
  identity_key_certificate_request :
    MachineKey → LoadableIdentityKey → String → Except String Bytes
  msoapxbc_rsa_public_as_der : MsOapxbcRsaKey → Except String Bytes
  identity_key_associate_certificate :
    MachineKey → LoadableIdentityKey → Bytes → Except String LoadableIdentityKey
  msoapxbc_rsa_seal_data : MsOapxbcRsaKey → Ser → Except String SealedData
  msoapxbc_rsa_unseal_data : MsOapxbcRsaKey → SealedData → Except String Ser

/-- `compact_jwt::JweCompact`, an opaque parsed compact JWE. -/
structure JweCompact where
  raw : String
deriving DecidableEq

/-- `SessionKey` (`src/auth.rs` lines 498-501). -/
structure SessionKey where
  session_key_jwe : JweCompact
deriving DecidableEq

/-- `BrokerClientApplication` (`src/auth.rs` lines 971-976): the broker
state is the pair of held loadable key handles (the HTTP client and
authority play no part in the claims' state). -/
structure BrokerClientApplication where
  transport_key : Option LoadableMsOapxbcRsaKey
  cert_key : Option LoadableIdentityKey
deriving DecidableEq

/-- The exact `ConfigError` message of the missing transport key. -/
def transportKeyMissingMsg : String :=
  "The transport key was not found. Please provide the transport key during initialize of the BrokerClientApplication, or enroll the device."

/-- The exact `ConfigError` message of the missing certificate key. -/
def certKeyMissingMsg : String :=
  "The certificate key was not found. Please provide the certificate key during initialize of the BrokerClientApplication, or enroll the device."

/-- `BrokerClientApplication::transport_key` (`src/auth.rs` lines 1016-1031):
a missing handle is a `ConfigError`, a hardware load failure a `TPMFail`. -/
def BrokerClientApplication.transport_key_load (app : BrokerClientApplication)
    (tpm : Tpm) (machine_key : MachineKey) : Except MsalError MsOapxbcRsaKey :=
  match app.transport_key with
  | some tk =>
      match tpm.msoapxbc_rsa_key_load machine_key tk with
      | Except.ok k => Except.ok k
      | Except.error e =>
          Except.error (MsalError.TPMFail ("Failed to load IdentityKey: " ++ e))
  | none => Except.error (MsalError.ConfigError transportKeyMissingMsg)

/-- `BrokerClientApplication::cert_key` (`src/auth.rs` lines 1043-1058). -/
def BrokerClientApplication.cert_key_load (app : BrokerClientApplication)
    (tpm : Tpm) (machine_key : MachineKey) : Except MsalError IdentityKey :=
  match app.cert_key with
  | some ck =>
      match tpm.identity_key_load machine_key ck with
      | Except.ok k => Except.ok k
      | Except.error e =>
          Except.error (MsalError.TPMFail ("Failed to load IdentityKey: " ++ e))
  | none => Except.error (MsalError.ConfigError certKeyMissingMsg)

/-- `seal_user_prt` (`src/auth.rs` lines 1890-1900): serialize the PRT, then
seal the bytes under the transport key via the hardware capability. -/
def seal_user_prt (tpm : Tpm) (key : MsOapxbcRsaKey) (prt : PrimaryRefreshToken) :
    Except MsalError SealedData :=
  match tpm.msoapxbc_rsa_seal_data key (encodePrt prt) with
  | Except.ok sd => Except.ok sd
  | Except.error e => Except.error (MsalError.TPMFail ("Failed sealing PRT " ++ e))

/-- `unseal_user_prt` (`src/auth.rs` lines 1902-1913): unseal via the
hardware capability (`TPMFail` on failure), then deserialize the recovered
bytes (`InvalidJson` on failure). -/
def unseal_user_prt (tpm : Tpm) (key : MsOapxbcRsaKey) (sealed_data : SealedData) :
    Except MsalError PrimaryRefreshToken :=
  match tpm.msoapxbc_rsa_unseal_data key sealed_data with
  | Except.error e => Except.error (MsalError.TPMFail ("Failed unsealing PRT " ++ e))
  | Except.ok ser =>
      match decodePrt ser with
      | some prt => Except.ok prt
      | none => Except.error (MsalError.InvalidJson "Failed deserializing PRT")

/-! ### Assertion payloads and protocol environment -/

def BROKER_CLIENT_IDENT : String := "38aa3b87-a06d-4817-b275-7a316988d93b"

def BROKER_APP_ID : String := "29d9ed98-a469-4536-ade2-f981bc1d605e"

def DRS_APP_ID : String := "01cb2876-7ebd-4aa4-9cc9-d28bd4d359a9"

/-- Modelled from the spec: `crate::discovery::DISCOVERY_URL` (section 6),
declared outside `src/`; its value is opaque to the claims. -/
def DISCOVERY_URL : String := "DISCOVERY_URL"

/-- `UsernamePasswordAuthenticationPayload` (`src/auth.rs` lines 311-343). -/
structure UsernamePasswordAuthenticationPayload where
  client_id : String
  request_nonce : String
  scope : String
  win_ver : Option String
  grant_type : String
  username : String
  password : String
deriving DecidableEq

/-- `UsernamePasswordAuthenticationPayload::new`; the OS release string is
read from the environment. -/
def UsernamePasswordAuthenticationPayload.new (os_release : Option String)
    (username password request_nonce : String) :
    UsernamePasswordAuthenticationPayload :=
  { client_id := BROKER_CLIENT_IDENT, request_nonce, scope := "openid aza ugs",
    win_ver := os_release, grant_type := "password", username, password }

/-- `RefreshTokenAuthenticationPayload` (`src/auth.rs` lines 345-375). -/
structure RefreshTokenAuthenticationPayload where
  client_id : String
  request_nonce : String
  scope : String
  win_ver : Option String
  grant_type : String
  refresh_token : String
deriving DecidableEq

/-- `RefreshTokenAuthenticationPayload::new`. -/
def RefreshTokenAuthenticationPayload.new (os_release : Option String)
    (refresh_token request_nonce : String) : RefreshTokenAuthenticationPayload :=
  { client_id := BROKER_CLIENT_IDENT, request_nonce, scope := "openid aza ugs",
    win_ver := os_release, grant_type := "refresh_token", refresh_token }

/-- `ExchangePRTPayload` (`src/auth.rs` lines 377-389). -/
structure ExchangePRTPayload where
  win_ver : Option String
  scope : String
  resource : Option String
  request_nonce : String
  refresh_token : String
  iss : String
  grant_type : String
  client_id : String
  aud : String
deriving DecidableEq

/-- `ExchangePRTPayload::new` (`src/auth.rs` lines 392-423): scope prefixed
with "openid", an extra " aza" marker when a new PRT is requested, the PRT's
refresh_token as proof material, fixed issuer/audience strings. -/
def ExchangePRTPayload.new (os_release : Option String)
    (prt : PrimaryRefreshToken) (scope : List String) (nonce : String)
    (resource : Option String) (request_prt : Bool) : ExchangePRTPayload :=
  let scopes := "openid " ++ String.intercalate " " scope
  let scopes := if request_prt then scopes ++ " aza" else scopes
  { win_ver := os_release, scope := scopes, resource, request_nonce := nonce,
    refresh_token := prt.refresh_token, iss := "aad:brokerplugin",
    grant_type := "refresh_token", client_id := BROKER_CLIENT_IDENT,
    aud := "login.microsoftonline.com" }

/-- The payload of an unsigned JWT built by the broker. -/
inductive JwsPayload where
  | userpass : UsernamePasswordAuthenticationPayload → JwsPayload
  | refresh : RefreshTokenAuthenticationPayload → JwsPayload
  | exchange : ExchangePRTPayload → JwsPayload
deriving DecidableEq

/-- `compact_jwt::Jws` as built by the broker: typ header, payload, optional
embedded certificate chain. -/
structure Jws where
  typ : Option String
  payload : JwsPayload
  x5c : Option Bytes
deriving DecidableEq

/-- The opaque derived session key (`compact_jwt::MsOapxbcSessionKey`). -/
structure MsOapxbcSessionKey where
  id : Nat
deriving DecidableEq

/-- An HTTP response: success flag (`status().is_success()`) and body. -/
structure HttpResp where
  success : Bool
  body : String
deriving DecidableEq

/-- An openssl X509 certificate, reduced to the two observations `auth.rs`
makes of it: DER re-encoding and the first subject RDN entry as UTF-8 (the
inner `Except` models `data().as_utf8()` failure). -/
structure X509 where
  to_der : Except String Bytes
  subject_first : Option (Except String String)

/-- An openssl RSA public key: exponent and modulus bytes. -/
structure RsaPublicKey where
  e : Bytes
  n : Bytes
deriving DecidableEq

/-- Discovery result for the device-join service (spec section 6). -/
structure DeviceJoinService where
  endpoint : Option String
  service_version : Option String

/-- Modelled from the spec: result of `discover_enrollment_services`
(`crate::discovery`, outside `src/`). -/
structure EnrollmentServices where
  device_join_service : Option DeviceJoinService

/-- The external collaborators of one broker operation: text-level parsers,
JOSE crypto, openssl, discovery, and the outcome of each network round trip
(spec sections 1, 2, 6). The theorems quantify over this record. -/
structure Env where
  parse : ParseEnv
  osRelease : Option String
  parseNonce : String → Option String
  parseErrorResponse : String → Option ErrorResponse
  jweFromStr : String → Except String JweCompact
  tpmSign : IdentityKey → Jws → Except String String
  completeKeyAgreement : MsOapxbcRsaKey → JweCompact → Except String MsOapxbcSessionKey
  sessionSign : MsOapxbcSessionKey → Jws → Except String String
  sessionDecipher : MsOapxbcSessionKey → MsOapxbcRsaKey → JweCompact → Except String Bytes
  derToRsa : Bytes → Except String RsaPublicKey
  discover : Except MsalError EnrollmentServices
  urlParse : String → String → Except String String
  parseDRS : String → Option String
  x509FromPem : String → Except String X509
  nonceResp : Except String HttpResp
  prtTokenResp : Except String HttpResp
  exchangeResp : Except String HttpResp
  drsResp : Except String HttpResp

/-- `PrimaryRefreshToken::session_key` (`src/auth.rs` lines 486-491). -/
def PrimaryRefreshToken.session_key (env : Env) (prt : PrimaryRefreshToken) :
    Except MsalError SessionKey :=
  match prt.session_key_jwe with
  | some s =>
      match env.jweFromStr s with
      | Except.ok j => Except.ok (SessionKey.mk j)
      | Except.error e =>
          Except.error (MsalError.InvalidParse ("Failed parsing jwe: " ++ e))
  | none => Except.error (MsalError.CryptoFail "session_key_jwe missing")

/-- `PrimaryRefreshToken::clone_session_key` (`src/auth.rs` lines 493-496):
copies this PRT's session-key envelope onto the new PRT. -/
def PrimaryRefreshToken.clone_session_key (self new_prt : PrimaryRefreshToken) :
    PrimaryRefreshToken :=
  { new_prt with session_key_jwe := self.session_key_jwe }

/-- `SessionKey::sign` (`src/auth.rs` lines 529-544): RSA-OAEP key agreement
through the hardware capability, then sign with the derived key. -/
def SessionKey.sign (env : Env) (sk : SessionKey)
    (transport_key : MsOapxbcRsaKey) (jws : Jws) : Except MsalError String :=
  match env.completeKeyAgreement transport_key sk.session_key_jwe with
  | Except.error e =>
      Except.error (MsalError.CryptoFail ("Unable to decipher session_key_jwe: " ++ e))
  | Except.ok k =>
      match env.sessionSign k jws with
      | Except.error e =>
          Except.error (MsalError.CryptoFail ("Failed signing jwk: " ++ e))
      | Except.ok s => Except.ok s

/-- `SessionKey::decipher_prt_v2` (`src/auth.rs` lines 512-527): the same
key agreement, then decrypt the response envelope to payload bytes. -/
def SessionKey.decipher_prt_v2 (env : Env) (sk : SessionKey)
    (transport_key : MsOapxbcRsaKey) (jwe : JweCompact) : Except MsalError Bytes :=
  match env.completeKeyAgreement transport_key sk.session_key_jwe with
  | Except.error e =>
      Except.error (MsalError.CryptoFail ("Unable to decipher session_key_jwe: " ++ e))
  | Except.ok k =>
      match env.sessionDecipher k transport_key jwe with
      | Except.error e =>
          Except.error (MsalError.CryptoFail ("Failed to decipher Jwe: " ++ e))
      | Except.ok bytes => Except.ok bytes

/-- `request_nonce` (`src/auth.rs` lines 1440-1461): POST the challenge
grant; on success parse the `Nonce` JSON, on failure the error body. -/
def request_nonce (env : Env) : Except MsalError String :=
  match env.nonceResp with
  | Except.error e => Except.error (MsalError.RequestFailed e)
  | Except.ok resp =>
    if resp.success then
      match env.parseNonce resp.body with
      | some n => Except.ok n
      | none => Except.error (MsalError.InvalidJson resp.body)
    else
      match env.parseErrorResponse resp.body with
      | some er => Except.error (MsalError.AcquireTokenFailed er)
      | none => Except.error (MsalError.InvalidJson resp.body)

/-- `acquire_user_prt_jwt` (`src/auth.rs` lines 1625-1664): submit the
signed assertion as a jwt-bearer grant; parse the success body directly into
a `PrimaryRefreshToken`, or the failure body into the structured error. -/
def acquire_user_prt_jwt (env : Env) (_signed_jwt : String) :
    Except MsalError PrimaryRefreshToken :=
  match env.prtTokenResp with
  | Except.error e => Except.error (MsalError.RequestFailed e)
  | Except.ok resp =>
    if resp.success then
      match env.parse.strToJson resp.body with
      | some j =>
          match parsePrt env.parse j with
          | Except.ok prt => Except.ok prt
          | Except.error e => Except.error (MsalError.InvalidJson e)
      | none => Except.error (MsalError.InvalidJson resp.body)
    else
      match env.parseErrorResponse resp.body with
      | some er => Except.error (MsalError.AcquireTokenFailed er)
      | none => Except.error (MsalError.InvalidJson resp.body)

/-- `sign_jwt` (`src/auth.rs` lines 1600-1623): load the cert key and sign
the assertion through the hardware capability. -/
def sign_jwt (env : Env) (app : BrokerClientApplication) (tpm : Tpm)
    (machine_key : MachineKey) (jwt : Jws) : Except MsalError String :=
  match app.cert_key_load tpm machine_key with
  | Except.error e => Except.error e
  | Except.ok cert_key =>
      match env.tpmSign cert_key jwt with
      | Except.ok s => Except.ok s
      | Except.error e => Except.error (MsalError.TPMFail ("Failed signing jwk: " ++ e))

/-- `build_jwt_by_username_password` (`src/auth.rs` lines 1463-1488) with no
embedded certificate, as called by the internal acquisition flow. -/
def build_jwt_by_username_password (env : Env) (username password : String) :
    Except MsalError Jws :=
  match request_nonce env with
  | Except.error e => Except.error e
  | Except.ok nonce =>
      Except.ok
        { typ := some "JWT",
          payload := JwsPayload.userpass
            (UsernamePasswordAuthenticationPayload.new env.osRelease username password nonce),
          x5c := none }

/-- `build_jwt_by_refresh_token` (`src/auth.rs` lines 1534-1559) with no
embedded certificate. -/
def build_jwt_by_refresh_token (env : Env) (refresh_token : String) :
    Except MsalError Jws :=
  match request_nonce env with
  | Except.error e => Except.error e
  | Except.ok nonce =>
      Except.ok
        { typ := some "JWT",
          payload := JwsPayload.refresh
            (RefreshTokenAuthenticationPayload.new env.osRelease refresh_token nonce),
          x5c := none }

/-- `acquire_user_prt_by_username_password_internal`
(`src/auth.rs` lines 1519-1532). -/
def acquire_user_prt_by_username_password_internal (env : Env)
    (app : BrokerClientApplication) (tpm : Tpm) (machine_key : MachineKey)
    (username password : String) : Except MsalError PrimaryRefreshToken :=
  match build_jwt_by_username_password env username password with
  | Except.error e => Except.error e
  | Except.ok jwt =>
      match sign_jwt env app tpm machine_key jwt with
      | Except.error e => Except.error e
      | Except.ok signed_jwt => acquire_user_prt_jwt env signed_jwt

/-- `acquire_user_prt_by_refresh_token_internal`
(`src/auth.rs` lines 1588-1598). -/
def acquire_user_prt_by_refresh_token_internal (env : Env)
    (app : BrokerClientApplication) (tpm : Tpm) (machine_key : MachineKey)
    (refresh_token : String) : Except MsalError PrimaryRefreshToken :=
  match build_jwt_by_refresh_token env refresh_token with
  | Except.error e => Except.error e
  | Except.ok jwt =>
      match sign_jwt env app tpm machine_key jwt with
      | Except.error e => Except.error e
      | Except.ok signed_jwt => acquire_user_prt_jwt env signed_jwt

/-- `sign_session_key_jwt` (`src/auth.rs` lines 1666-1677): reload the
transport key, then sign through the session-key handshake. -/
def sign_session_key_jwt (env : Env) (app : BrokerClientApplication) (tpm : Tpm)
    (machine_key : MachineKey) (session_key : SessionKey) (jwt : Jws) :
    Except MsalError String :=
  match app.transport_key_load tpm machine_key with
  | Except.error e => Except.error e
  | Except.ok transport_key => session_key.sign env transport_key jwt

/-- `exchange_prt_for_access_token_internal` (`src/auth.rs` lines
1721-1798): build and session-key-sign the exchange assertion, submit it,
then decrypt the encrypted response envelope and parse a `UserToken`. -/
def exchange_prt_for_access_token_internal (env : Env)
    (app : BrokerClientApplication) (tpm : Tpm) (machine_key : MachineKey)
    (prt : PrimaryRefreshToken) (scope : List String)
    (transport_key : MsOapxbcRsaKey) (session_key : SessionKey)
    (request_resource : Option String) : Except MsalError UserToken :=
  match request_nonce env with
  | Except.error e => Except.error e
  | Except.ok nonce =>
    match sign_session_key_jwt env app tpm machine_key session_key
      { typ := some "JWT",
        payload := JwsPayload.exchange
          (ExchangePRTPayload.new env.osRelease prt scope nonce
            (some (match request_resource with
                   | some r => r
                   | none => "00000002-0000-0000-c000-000000000000")) false),
        x5c := none } with
    | Except.error e => Except.error e
    | Except.ok _signed_jwt =>
      match env.exchangeResp with
      | Except.error e => Except.error (MsalError.RequestFailed e)
      | Except.ok resp =>
        if resp.success then
          match env.jweFromStr resp.body with
          | Except.error e => Except.error (MsalError.InvalidParse e)
          | Except.ok jwe =>
            match session_key.decipher_prt_v2 env transport_key jwe with
            | Except.error err => Except.error err
            | Except.ok bytes =>
              match utf8Decode bytes with
              | none => Except.error (MsalError.InvalidParse "invalid utf-8 sequence")
              | some s =>
                match env.parse.strToJson s with
                | none => Except.error (MsalError.InvalidJson s)
                | some j =>
                  match parseUserToken env.parse j with
                  | Except.ok token => Except.ok token
                  | Except.error e => Except.error (MsalError.InvalidJson e)
        else
          match env.parseErrorResponse resp.body with
          | some er => Except.error (MsalError.AcquireTokenFailed er)
          | none => Except.error (MsalError.InvalidJson resp.body)

/-- `exchange_prt_for_access_token` (`src/auth.rs` lines 1698-1719): unseal
the PRT, derive its session key, and return the internal exchange's token
unchanged. -/
def exchange_prt_for_access_token (env : Env) (app : BrokerClientApplication)
    (tpm : Tpm) (machine_key : MachineKey) (sealed_prt : SealedData)
    (scope : List String) (request_resource : Option String) :
    Except MsalError UserToken :=
  match app.transport_key_load tpm machine_key with
  | Except.error e => Except.error e
  | Except.ok transport_key =>
    match unseal_user_prt tpm transport_key sealed_prt with
    | Except.error e => Except.error e
    | Except.ok prt =>
      match prt.session_key env with
      | Except.error e => Except.error e
      | Except.ok session_key =>
          exchange_prt_for_access_token_internal env app tpm machine_key prt
            scope transport_key session_key request_resource

/-- `acquire_token_by_username_password` on the broker
(`src/auth.rs` lines 1293-1320): acquire a PRT, exchange it, then attach the
PRT's client-info and a freshly sealed copy of the PRT onto the token. -/
def acquire_token_by_username_password (env : Env)
    (app : BrokerClientApplication) (tpm : Tpm) (machine_key : MachineKey)
    (username password : String) (scopes : List String) :
    Except MsalError UserToken :=
  match acquire_user_prt_by_username_password_internal env app tpm machine_key
      username password with
  | Except.error e => Except.error e
  | Except.ok prt =>
    match app.transport_key_load tpm machine_key with
    | Except.error e => Except.error e
    | Except.ok transport_key =>
      match prt.session_key env with
      | Except.error e => Except.error e
      | Except.ok session_key =>
        match exchange_prt_for_access_token_internal env app tpm machine_key prt
            scopes transport_key session_key none with
        | Except.error e => Except.error e
        | Except.ok token =>
          match seal_user_prt tpm transport_key prt with
          | Except.error e => Except.error e
          | Except.ok sealed =>
              Except.ok { token with client_info := prt.client_info, prt := some sealed }

/-- `acquire_token_by_refresh_token` on the broker
(`src/auth.rs` lines 1337-1363). -/
def acquire_token_by_refresh_token (env : Env) (app : BrokerClientApplication)
    (tpm : Tpm) (machine_key : MachineKey) (refresh_token : String)
    (scopes : List String) : Except MsalError UserToken :=
  match acquire_user_prt_by_refresh_token_internal env app tpm machine_key
      refresh_token with
  | Except.error e => Except.error e
  | Except.ok prt =>
    match app.transport_key_load tpm machine_key with
    | Except.error e => Except.error e
    | Except.ok transport_key =>
      match prt.session_key env with
      | Except.error e => Except.error e
      | Except.ok session_key =>
        match exchange_prt_for_access_token_internal env app tpm machine_key prt
            scopes transport_key session_key none with
        | Except.error e => Except.error e
        | Except.ok token =>
          match seal_user_prt tpm transport_key prt with
          | Except.error e => Except.error e
          | Except.ok sealed =>
              Except.ok { token with client_info := prt.client_info, prt := some sealed }

/-- `exchange_prt_for_prt` (`src/auth.rs` lines 1818-1888): unseal the old
PRT, run the rotation exchange, decrypt and parse the new PRT, copy the old
PRT's session-key envelope onto it, and seal it for return. -/
def exchange_prt_for_prt (env : Env) (app : BrokerClientApplication) (tpm : Tpm)
    (machine_key : MachineKey) (sealed_prt : SealedData) (_request_tgt : Bool) :
    Except MsalError SealedData :=
  match app.transport_key_load tpm machine_key with
  | Except.error e => Except.error e
  | Except.ok transport_key =>
    match unseal_user_prt tpm transport_key sealed_prt with
    | Except.error e => Except.error e
    | Except.ok prt =>
      match prt.session_key env with
      | Except.error e => Except.error e
      | Except.ok session_key =>
        match request_nonce env with
        | Except.error e => Except.error e
        | Except.ok nonce =>
          match sign_session_key_jwt env app tpm machine_key session_key
            { typ := some "JWT",
              payload := JwsPayload.exchange
                (ExchangePRTPayload.new env.osRelease prt [] nonce none true),
              x5c := none } with
          | Except.error e => Except.error e
          | Except.ok _signed_jwt =>
            match env.exchangeResp with
            | Except.error e => Except.error (MsalError.RequestFailed e)
            | Except.ok resp =>
              if resp.success then
                match env.jweFromStr resp.body with
                | Except.error e => Except.error (MsalError.InvalidParse e)
                | Except.ok jwe =>
                  match session_key.decipher_prt_v2 env transport_key jwe with
                  | Except.error err => Except.error err
                  | Except.ok bytes =>
                    match utf8Decode bytes with
                    | none => Except.error (MsalError.InvalidParse "invalid utf-8 sequence")
                    | some s =>
                      match env.parse.strToJson s with
                      | none => Except.error (MsalError.InvalidJson s)
                      | some j =>
                        match parsePrt env.parse j with
                        | Except.error e => Except.error (MsalError.InvalidJson e)
                        | Except.ok new_prt =>
                            seal_user_prt tpm transport_key
                              (prt.clone_session_key new_prt)
              else
                match env.parseErrorResponse resp.body with
                | some er => Except.error (MsalError.AcquireTokenFailed er)
                | none => Except.error (MsalError.InvalidJson resp.body)

/-- `EnrollAttrs` (`src/auth.rs` lines 844-851). -/
structure EnrollAttrs where
  device_display_name : String
  device_type : String
  join_type : Nat
  os_version : String
  target_domain : String
deriving DecidableEq

/-- `enroll_device_internal` (`src/auth.rs` lines 1173-1274): discover the
join endpoint, encode the transport key, POST the enrollment envelope, and
on success extract the certificate and the device id from its subject's
first RDN entry. -/
def enroll_device_internal (env : Env) (_access_token : String)
    (_attrs : EnrollAttrs) (transport_key : RsaPublicKey) (_csr_der : Bytes) :
    Except MsalError (X509 × String) :=
  match env.discover with
  | Except.error e => Except.error e
  | Except.ok enrollment_services =>
    let je := match enrollment_services.device_join_service with
      | some djs =>
          (match djs.endpoint with
           | some join_endpoint => join_endpoint
           | none => DISCOVERY_URL ++ "/EnrollmentServer/device/",
           match djs.service_version with
           | some service_version => service_version
           | none => "2.0")
      | none => (DISCOVERY_URL ++ "/EnrollmentServer/device/", "2.0")
    match env.urlParse je.1 je.2 with
    | Except.error e => Except.error (MsalError.URLFormatFailed e)
    | Except.ok _url =>
      match (BcryptRsaKeyBlob.new 2048 transport_key.e transport_key.n).try_into with
      | Except.error e => Except.error e
      | Except.ok _transport_key_blob =>
        match env.drsResp with
        | Except.error e => Except.error (MsalError.RequestFailed e)
        | Except.ok resp =>
          if resp.success then
            match env.parseDRS resp.body with
            | none => Except.error (MsalError.InvalidJson resp.body)
            | some raw_body =>
              match env.x509FromPem
                  ("-----BEGIN CERTIFICATE-----\n" ++ raw_body ++
                   "\n-----END CERTIFICATE-----") with
              | Except.error e => Except.error (MsalError.GeneralFailure e)
              | Except.ok cert =>
                match cert.subject_first with
                | some (Except.ok device_id) => Except.ok (cert, device_id)
                | some (Except.error e) => Except.error (MsalError.GeneralFailure e)
                | none =>
                    Except.error (MsalError.GeneralFailure
                      "The device id was missing from the certificate response")
          else Except.error (MsalError.GeneralFailure resp.body)

/-- `enroll_device` (`src/auth.rs` lines 1089-1171): create the cert and
transport keys, store the new transport handle on the broker, build the CSR,
submit the enrollment request, bind the returned certificate and store the
new cert handle. The returned state is the broker's state after the call
(`&mut self`). -/
def enroll_device (env : Env) (app : BrokerClientApplication) (tpm : Tpm)
    (machine_key : MachineKey) (token : UserToken) (attrs : EnrollAttrs) :
    BrokerClientApplication ×
      Except MsalError (LoadableMsOapxbcRsaKey × LoadableIdentityKey × String) :=
  match tpm.identity_key_create machine_key with
  | Except.error e =>
      (app, Except.error (MsalError.TPMFail ("Failed creating certificate key: " ++ e)))
  | Except.ok loadable_cert_key =>
    match tpm.msoapxbc_rsa_key_create machine_key with
    | Except.error e =>
        (app, Except.error (MsalError.TPMFail ("Failed creating tranport key: " ++ e)))
    | Except.ok loadable_transport_key =>
      let app := { app with transport_key := some loadable_transport_key }
      match tpm.identity_key_certificate_request machine_key loadable_cert_key
          "7E980AD9-B86D-4306-9425-9AC066FB014A" with
      | Except.error e =>
          (app, Except.error (MsalError.TPMFail ("Failed creating CSR: " ++ e)))
      | Except.ok csr_der =>
        match tpm.msoapxbc_rsa_key_load machine_key loadable_transport_key with
        | Except.error e =>
            (app, Except.error (MsalError.TPMFail ("Failed loading id key: " ++ e)))
        | Except.ok transport_key =>
          match tpm.msoapxbc_rsa_public_as_der transport_key with
          | Except.error e =>
              (app, Except.error
                (MsalError.TPMFail ("Failed getting transport key as der: " ++ e)))
          | Except.ok transport_key_der =>
            match env.derToRsa transport_key_der with
            | Except.error e => (app, Except.error (MsalError.TPMFail e))
            | Except.ok transport_key_rsa =>
              match token.access_token with
              | none => (app, Except.error (MsalError.GeneralFailure "Access token not found"))
              | some access_token =>
                match enroll_device_internal env access_token attrs
                    transport_key_rsa csr_der with
                | Except.error e => (app, Except.error e)
                | Except.ok (cert, device_id) =>
                  match cert.to_der with
                  | Except.error e => (app, Except.error (MsalError.TPMFail e))
                  | Except.ok cert_der =>
                    match tpm.identity_key_associate_certificate machine_key
                        loadable_cert_key cert_der with
                    | Except.error e =>
                        (app, Except.error
                          (MsalError.TPMFail ("Failed creating loadable identity key: " ++ e)))
                    | Except.ok new_loadable_cert_key =>
                        ({ app with cert_key := some new_loadable_cert_key },
                         Except.ok (loadable_transport_key, new_loadable_cert_key,
                           device_id))

/-! ### Concrete instances used by the witnesses -/

def mkC : MachineKey := MachineKey.mk 0

def sampleIdToken : IdToken :=
  { name := "Sam", oid := "oid1", preferred_username := some "sam@example.test",
    puid := none, tenant_region_scope := none, tid := "tid1" }

def samplePrt : PrimaryRefreshToken :=
  { token_type := "Bearer", expires_in := "3600", ext_expires_in := "3600",
    expires_on := "1700000000", refresh_token := "RT1",
    refresh_token_expires_in := 86400, session_key_jwe := some "JWE1",
    id_token := sampleIdToken,
    client_info := { uid := some (Uuid.mk "u1"), utid := some (Uuid.mk "t1") },
    device_tenant_id := none, tgt_ad := TGT.default, tgt_cloud := TGT.default,
    kerberos_top_level_names := none }

/-- A hardware capability whose seal/unseal are mutually inverse (identity on
the payload) and whose other operations are unused. -/
def tpmId : Tpm :=
  { identity_key_create := fun _ => Except.error "unused",
    msoapxbc_rsa_key_create := fun _ => Except.error "unused",
    identity_key_load := fun _ _ => Except.error "unused",
    msoapxbc_rsa_key_load := fun _ _ => Except.error "unused",
    identity_key_certificate_request := fun _ _ _ => Except.error "unused",
    msoapxbc_rsa_public_as_der := fun _ => Except.error "unused",
    identity_key_associate_certificate := fun _ _ _ => Except.error "unused",
    msoapxbc_rsa_seal_data := fun _ d => Except.ok (SealedData.mk d),
    msoapxbc_rsa_unseal_data := fun _ s => Except.ok s.data }

/-- A hardware capability where every operation succeeds deterministically. -/
def tpmFull : Tpm :=
  { identity_key_create := fun _ => Except.ok (LoadableIdentityKey.mk 10),
    msoapxbc_rsa_key_create := fun _ => Except.ok (LoadableMsOapxbcRsaKey.mk 11),
    identity_key_load := fun _ _ => Except.ok (IdentityKey.mk 3),
    msoapxbc_rsa_key_load := fun _ _ => Except.ok (MsOapxbcRsaKey.mk 7),
    identity_key_certificate_request := fun _ _ _ => Except.ok [1, 2, 3],
    msoapxbc_rsa_public_as_der := fun _ => Except.ok [4, 5, 6],
    identity_key_associate_certificate := fun _ _ _ =>
      Except.ok (LoadableIdentityKey.mk 12),
    msoapxbc_rsa_seal_data := fun _ d => Except.ok (SealedData.mk d),
    msoapxbc_rsa_unseal_data := fun _ s => Except.ok s.data }

def appC : BrokerClientApplication :=
  { transport_key := some (LoadableMsOapxbcRsaKey.mk 1),
    cert_key := some (LoadableIdentityKey.mk 2) }

def appEmpty : BrokerClientApplication := { transport_key := none, cert_key := none }

/-- A trivial text-level parse environment. -/
def parseEnvTrivial : ParseEnv :=
  { strToJson := fun _ => none, uuidParse := fun _ => none,
    sealedDataParse := fun _ => none }

/-- JSON object of a `UserToken` server response (client_info omitted). -/
def utJson : Json :=
  Json.obj [("token_type", Json.str "Bearer"), ("expires_in", Json.num 3600),
    ("ext_expires_in", Json.num 3600), ("access_token", Json.str "AT"),
    ("refresh_token", Json.str "RT2"),
    ("id_token", Json.obj [("name", Json.str "n"), ("oid", Json.str "o"),
      ("tid", Json.str "t")])]

/-- Fields of a `PrimaryRefreshToken` server response that omits the tgt
fields and client_info. -/
def prtFields : List (String × Json) :=
  [("token_type", Json.str "Bearer"), ("expires_in", Json.str "3600"),
    ("ext_expires_in", Json.str "3600"), ("expires_on", Json.str "170"),
    ("refresh_token", Json.str "RT"), ("refresh_token_expires_in", Json.num 500),
    ("session_key_jwe", Json.str "JWE1"),
    ("id_token", Json.obj [("name", Json.str "n"), ("oid", Json.str "o"),
      ("tid", Json.str "t")])]

/-- JSON object of a `PrimaryRefreshToken` server response (tgt fields and
client_info omitted). -/
def prtJson : Json := Json.obj prtFields

/-- The `UserToken` that `parseUserToken` recovers from `utJson`. -/
def utParsed : UserToken :=
  { token_type := "Bearer", scope := none, expires_in := 3600,
    ext_expires_in := 3600, access_token := some "AT", refresh_token := "RT2",
    id_token := { name := "n", oid := "o", preferred_username := none,
                  puid := none, tenant_region_scope := none, tid := "t" },
    client_info := ClientInfo.default, prt := none }

/-- The `PrimaryRefreshToken` that `parsePrt` recovers from `prtJson`. -/
def prtW : PrimaryRefreshToken :=
  { token_type := "Bearer", expires_in := "3600", ext_expires_in := "3600",
    expires_on := "170", refresh_token := "RT", refresh_token_expires_in := 500,
    session_key_jwe := some "JWE1",
    id_token := { name := "n", oid := "o", preferred_username := none,
                  puid := none, tenant_region_scope := none, tid := "t" },
    client_info := ClientInfo.default, device_tenant_id := none,
    tgt_ad := TGT.default, tgt_cloud := TGT.default,
    kerberos_top_level_names := none }

/-- Text-level JSON collaborator mapping the two concrete bodies used by the
witnesses to their `Json` values. -/
def parseEnvC : ParseEnv :=
  { strToJson := fun s =>
      if s = "UT" then some utJson else if s = "PB" then some prtJson else none,
    uuidParse := fun _ => none,
    sealedDataParse := fun _ => none }

/-- An environment in which every network round trip and crypto operation
succeeds: the nonce body yields "N1", the PRT endpoint returns `prtJson` (as
body "PB"), the exchange endpoint returns an envelope deciphering to the
bytes of "UT" (85, 84), which parse to `utJson`. -/
def envC4 : Env :=
  { parse := parseEnvC, osRelease := none,
    parseNonce := fun _ => some "N1",
    parseErrorResponse := fun _ => none,
    jweFromStr := fun s => Except.ok (JweCompact.mk s),
    tpmSign := fun _ _ => Except.ok "SIG",
    completeKeyAgreement := fun _ _ => Except.ok (MsOapxbcSessionKey.mk 1),
    sessionSign := fun _ _ => Except.ok "SSIG",
    sessionDecipher := fun _ _ _ => Except.ok [85, 84],
    derToRsa := fun _ => Except.ok (RsaPublicKey.mk [1, 0, 1] [9, 8, 7]),
    discover := Except.ok (EnrollmentServices.mk none),
    urlParse := fun _ _ => Except.ok "URL",
    parseDRS := fun _ => none,
    x509FromPem := fun _ => Except.error "unused",
    nonceResp := Except.ok (HttpResp.mk true "NB"),
    prtTokenResp := Except.ok (HttpResp.mk true "PB"),
    exchangeResp := Except.ok (HttpResp.mk true "ENC"),
    drsResp := Except.error "unused" }

/-- Same environment, but the PRT token endpoint denies the request with a
structured error body "EB". -/
def envC8fail : Env :=
  { envC4 with prtTokenResp := Except.ok (HttpResp.mk false "EB"),
               parseErrorResponse := fun s => some (ErrorResponse.mk s) }

/-- A hardware capability whose unseal always fails (wrong transport key). -/
def tpmBadUnseal : Tpm :=
  { tpmId with msoapxbc_rsa_unseal_data := fun _ _ => Except.error "wrong key" }

/-- `tpmFull` but with a failing certificate-signing-request step. -/
def tpmCsrFail : Tpm :=
  { tpmFull with
    identity_key_certificate_request := fun _ _ _ => Except.error "csr boom" }

def attrsC : EnrollAttrs :=
  { device_display_name := "host", device_type := "Linux", join_type := 0,
    os_version := "os 1", target_domain := "example.test" }

/-- A token with no `preferred_username` whose access_token payload segment
"!" is not valid base64. -/
def tokBadB64 : UserToken := { utParsed with access_token := some "h.!.t" }

/-- A token carrying a `preferred_username`. -/
def tokPU : UserToken := { utParsed with id_token := sampleIdToken }

/-- A token with neither `preferred_username` nor an access token. -/
def tokNoAT : UserToken := { utParsed with access_token := none }

/-- A token whose access_token payload segment "QQ" base64-decodes to the
byte 65, the UTF-8 text "A". -/
def tokUpn : UserToken := { utParsed with access_token := some "h.QQ.t" }

/-- Text-level JSON collaborator mapping "A" to an object with a string
`upn` claim. -/
def upnEnv : ParseEnv :=
  { strToJson := fun s =>
      if s = "A" then some (Json.obj [("upn", Json.str "upn@example.test")]) else none,
    uuidParse := fun _ => none,
    sealedDataParse := fun _ => none }

/-- JSON object of a rotation response: a PRT with no `session_key_jwe`
member (the server does not re-issue the envelope on rotation). -/
def rotJson : Json :=
  Json.obj [("token_type", Json.str "Bearer"), ("expires_in", Json.str "3600"),
    ("ext_expires_in", Json.str "3600"), ("expires_on", Json.str "170"),
    ("refresh_token", Json.str "RTnew"),
    ("refresh_token_expires_in", Json.num 500),
    ("id_token", Json.obj [("name", Json.str "n"), ("oid", Json.str "o"),
      ("tid", Json.str "t")])]

/-- The PRT parsed from `rotJson`: its envelope defaults to `none`. -/
def prtRot : PrimaryRefreshToken :=
  { token_type := "Bearer", expires_in := "3600", ext_expires_in := "3600",
    expires_on := "170", refresh_token := "RTnew",
    refresh_token_expires_in := 500, session_key_jwe := none,
    id_token := { name := "n", oid := "o", preferred_username := none,
                  puid := none, tenant_region_scope := none, tid := "t" },
    client_info := ClientInfo.default, device_tenant_id := none,
    tgt_ad := TGT.default, tgt_cloud := TGT.default,
    kerberos_top_level_names := none }

/-- A certificate whose subject's first RDN entry reads "device-1234". -/
def certC : X509 :=
  { to_der := Except.ok [1, 2],
    subject_first := some (Except.ok "device-1234") }

/-- Environment for a successful enrollment: the device-join endpoint
returns a body whose certificate binds to `certC`. -/
def envEnroll : Env :=
  { envC4 with drsResp := Except.ok (HttpResp.mk true "DB"),
               parseDRS := fun _ => some "CERTB64",
               x509FromPem := fun _ => Except.ok certC }

/-- Environment for a successful rotation: the exchange envelope deciphers
to the bytes of "RB" (82, 66), which parse to `rotJson`. -/
def envRot : Env :=
  { envC4 with
    parse := { strToJson := fun s => if s = "RB" then some rotJson else none,
               uuidParse := fun _ => none,
               sealedDataParse := fun _ => none },
    sessionDecipher := fun _ _ _ => Except.ok [82, 66] }
/-! ## Theorems

Serialization round-trip lemmas, followed by one theorem per claim with its
witness or counterexample. -/

theorem dStr_enc (s : String) (r : Ser) : dStr (encStr s ++ r) = some (s, r) := rfl

theorem dNat_enc (n : Nat) (r : Ser) : dNat (encNat n ++ r) = some (n, r) := rfl

theorem dOptStr_enc (o : Option String) (r : Ser) :
    dOptStr (encOptStr o ++ r) = some (o, r) := by
  cases o <;> rfl

theorem dOptUuid_enc (o : Option Uuid) (r : Ser) :
    dOptUuid (encOptUuid o ++ r) = some (o, r) := by
  cases o <;> rfl

theorem dIdToken_enc (t : IdToken) (r : Ser) :
    dIdToken (encIdToken t ++ r) = some (t, r) := by
  cases t
  simp only [encIdToken, dIdToken, List.append_assoc, dStr_enc, dOptStr_enc]

theorem dClientInfo_enc (c : ClientInfo) (r : Ser) :
    dClientInfo (encClientInfo c ++ r) = some (c, r) := by
  cases c
  simp only [encClientInfo, dClientInfo, List.append_assoc, dOptUuid_enc]

theorem dTGT_enc (t : TGT) (r : Ser) : dTGT (encTGT t ++ r) = some (t, r) := by
  cases t
  simp only [encTGT, dTGT, List.append_assoc, dOptStr_enc, dNat_enc]

theorem decodePrtAux_enc (p : PrimaryRefreshToken) (r : Ser) :
    decodePrtAux (encodePrt p ++ r) = some (p, r) := by
  cases p
  simp only [encodePrt, decodePrtAux, List.append_assoc, dStr_enc, dNat_enc,
    dOptStr_enc, dIdToken_enc, dClientInfo_enc, dTGT_enc]

/-- Round trip of the canonical PRT serialization. -/
theorem decodePrt_encodePrt (p : PrimaryRefreshToken) :
    decodePrt (encodePrt p) = some p := by
  have h := decodePrtAux_enc p []
  simp only [List.append_nil] at h
  simp [decodePrt, h]

theorem fromLe32_u32le (n : Nat) (h : n < 4294967296) : fromLe32 (u32le n) = n := by
  simp only [u32le, fromLe32]
  omega

theorem take_len_append (l₁ l₂ : Bytes) : (l₁ ++ l₂).take l₁.length = l₁ := by
  induction l₁ with
  | nil => rfl
  | cons a t ih => simp [ih]

theorem drop_len_append (l₁ l₂ : Bytes) : (l₁ ++ l₂).drop l₁.length = l₂ := by
  induction l₁ with
  | nil => rfl
  | cons a t ih => simp [ih]

/-- C3: for every exponent, modulus and declared bit length whose lengths fit
in 32 bits, the Binary Key Encoder's output is exactly the magic "RSA1", the
bit length, the exponent length, the modulus length (all u32 LE), two zero
reserved prime-length u32 fields, then the raw exponent and modulus bytes —
so decoding by field offsets recovers every input exactly. -/
theorem bcrypt_blob_layout (bit_length : Nat) (exponent modulus : Bytes)
    (hb : bit_length < 4294967296)
    (he : exponent.length < 4294967296)
    (hm : modulus.length < 4294967296) :
    ∃ out,
      (BcryptRsaKeyBlob.new bit_length exponent modulus).try_into = Except.ok out ∧
      out.take 4 = RSA1_MAGIC ∧
      fromLe32 ((out.drop 4).take 4) = bit_length ∧
      fromLe32 ((out.drop 8).take 4) = exponent.length ∧
      fromLe32 ((out.drop 12).take 4) = modulus.length ∧
      (out.drop 16).take 4 = u32le 0 ∧
      (out.drop 20).take 4 = u32le 0 ∧
      fromLe32 ((out.drop 16).take 4) = 0 ∧
      fromLe32 ((out.drop 20).take 4) = 0 ∧
      (out.drop 24).take exponent.length = exponent ∧
      (out.drop 24).drop exponent.length = modulus ∧
      out.length = 24 + exponent.length + modulus.length := by
  refine ⟨RSA1_MAGIC ++ u32le bit_length ++ u32le exponent.length ++
    u32le modulus.length ++ u32le 0 ++ u32le 0 ++ exponent ++ modulus,
    ?_, rfl, ?_, ?_, ?_, rfl, rfl, rfl, rfl, ?_, ?_, ?_⟩
  · simp [BcryptRsaKeyBlob.try_into, BcryptRsaKeyBlob.new, he, hm]
  · exact fromLe32_u32le bit_length hb
  · exact fromLe32_u32le exponent.length he
  · exact fromLe32_u32le modulus.length hm
  · exact take_len_append exponent modulus
  · exact drop_len_append exponent modulus
  · simp [RSA1_MAGIC, u32le]
    omega

/-- Witness for C3 at a concrete key: exponent `[1, 0, 1]`, modulus
`[9, 8, 7, 6]`, bit length 2048. -/
theorem bcrypt_blob_layout_witness :
    (2048 < 4294967296 ∧ ([1, 0, 1] : Bytes).length < 4294967296 ∧
      ([9, 8, 7, 6] : Bytes).length < 4294967296) ∧
    ∃ out,
      (BcryptRsaKeyBlob.new 2048 [1, 0, 1] [9, 8, 7, 6]).try_into = Except.ok out ∧
      out.take 4 = RSA1_MAGIC ∧
      fromLe32 ((out.drop 4).take 4) = 2048 ∧
      fromLe32 ((out.drop 8).take 4) = ([1, 0, 1] : Bytes).length ∧
      fromLe32 ((out.drop 12).take 4) = ([9, 8, 7, 6] : Bytes).length ∧
      (out.drop 16).take 4 = u32le 0 ∧
      (out.drop 20).take 4 = u32le 0 ∧
      fromLe32 ((out.drop 16).take 4) = 0 ∧
      fromLe32 ((out.drop 20).take 4) = 0 ∧
      (out.drop 24).take ([1, 0, 1] : Bytes).length = [1, 0, 1] ∧
      (out.drop 24).drop ([1, 0, 1] : Bytes).length = [9, 8, 7, 6] ∧
      out.length = 24 + ([1, 0, 1] : Bytes).length + ([9, 8, 7, 6] : Bytes).length :=
  ⟨by decide,
   bcrypt_blob_layout 2048 [1, 0, 1] [9, 8, 7, 6] (by decide) (by decide) (by decide)⟩

/-- C2: sealing a PRT under a transport key and unsealing under the same key
returns a PRT equal in all fields to the original, assuming the hardware
capability's unseal is the inverse of its seal under that key. -/
theorem seal_unseal_roundtrip (tpm : Tpm) (key : MsOapxbcRsaKey)
    (prt : PrimaryRefreshToken) (sd : SealedData)
    (hhw : ∀ d s, tpm.msoapxbc_rsa_seal_data key d = Except.ok s →
      tpm.msoapxbc_rsa_unseal_data key s = Except.ok d)
    (hseal : seal_user_prt tpm key prt = Except.ok sd) :
    unseal_user_prt tpm key sd = Except.ok prt := by
  unfold seal_user_prt at hseal
  cases h : tpm.msoapxbc_rsa_seal_data key (encodePrt prt) with
  | error e => rw [h] at hseal; exact Except.noConfusion hseal
  | ok sd2 =>
    rw [h] at hseal
    have hsd : sd2 = sd := by injection hseal
    subst hsd
    have hun := hhw _ _ h
    unfold unseal_user_prt
    simp only [hun, decodePrt_encodePrt]

/-- Witness for C2: the identity hardware capability and a concrete PRT. -/
theorem seal_unseal_roundtrip_witness :
    (seal_user_prt tpmId (MsOapxbcRsaKey.mk 0) samplePrt =
      Except.ok (SealedData.mk (encodePrt samplePrt))) ∧
    unseal_user_prt tpmId (MsOapxbcRsaKey.mk 0)
      (SealedData.mk (encodePrt samplePrt)) = Except.ok samplePrt :=
  ⟨rfl,
   seal_unseal_roundtrip tpmId (MsOapxbcRsaKey.mk 0) samplePrt
     (SealedData.mk (encodePrt samplePrt))
     (fun d s h => by
       have hds : SealedData.mk d = s := by injection h
       rw [← hds]; rfl)
     rfl⟩

/-- C6: `unseal_user_prt` reports a hardware unseal failure as `TPMFail` and
a deserialization failure of successfully unsealed bytes as `InvalidJson`;
the two error kinds are distinct constructors, never conflated. -/
theorem unseal_error_kinds (tpm : Tpm) (key : MsOapxbcRsaKey) (sd : SealedData) :
    (∀ e, tpm.msoapxbc_rsa_unseal_data key sd = Except.error e →
      unseal_user_prt tpm key sd =
        Except.error (MsalError.TPMFail ("Failed unsealing PRT " ++ e))) ∧
    (∀ ser, tpm.msoapxbc_rsa_unseal_data key sd = Except.ok ser →
      decodePrt ser = none →
      unseal_user_prt tpm key sd =
        Except.error (MsalError.InvalidJson "Failed deserializing PRT")) ∧
    (∀ s t, MsalError.TPMFail s ≠ MsalError.InvalidJson t) := by
  refine ⟨?_, ?_, ?_⟩
  · intro e he
    unfold unseal_user_prt
    rw [he]
  · intro ser hser hdec
    unfold unseal_user_prt
    simp only [hser, hdec]
  · intro s t h
    exact MsalError.noConfusion h

/-- Witness for C6: a failing unseal yields `TPMFail`, an empty unsealed
byte stream yields `InvalidJson`, and the two kinds differ. -/
theorem unseal_error_kinds_witness :
    (unseal_user_prt tpmBadUnseal (MsOapxbcRsaKey.mk 0) (SealedData.mk []) =
      Except.error (MsalError.TPMFail "Failed unsealing PRT wrong key")) ∧
    (unseal_user_prt tpmId (MsOapxbcRsaKey.mk 0) (SealedData.mk []) =
      Except.error (MsalError.InvalidJson "Failed deserializing PRT")) ∧
    MsalError.TPMFail "Failed unsealing PRT wrong key" ≠
      MsalError.InvalidJson "Failed deserializing PRT" :=
  ⟨(unseal_error_kinds tpmBadUnseal (MsOapxbcRsaKey.mk 0) (SealedData.mk [])).1
     "wrong key" rfl,
   (unseal_error_kinds tpmId (MsOapxbcRsaKey.mk 0) (SealedData.mk [])).2.1
     [] rfl rfl,
   (unseal_error_kinds tpmId (MsOapxbcRsaKey.mk 0) (SealedData.mk [])).2.2
     "Failed unsealing PRT wrong key" "Failed deserializing PRT"⟩

/-- C7: a missing loadable transport/cert key handle is reported as
`ConfigError` and a hardware load failure as `TPMFail`, as distinct kinds,
by the two accessors through which every broker operation obtains its keys;
operations needing the transport key (sealed-PRT exchange and rotation)
propagate the `ConfigError` when the handle is absent. -/
theorem key_handle_error_kinds (app : BrokerClientApplication) (tpm : Tpm)
    (machine_key : MachineKey) :
    (app.transport_key = none →
      app.transport_key_load tpm machine_key =
        Except.error (MsalError.ConfigError transportKeyMissingMsg)) ∧
    (∀ ltk e, app.transport_key = some ltk →
      tpm.msoapxbc_rsa_key_load machine_key ltk = Except.error e →
      app.transport_key_load tpm machine_key =
        Except.error (MsalError.TPMFail ("Failed to load IdentityKey: " ++ e))) ∧
    (app.cert_key = none →
      app.cert_key_load tpm machine_key =
        Except.error (MsalError.ConfigError certKeyMissingMsg)) ∧
    (∀ lck e, app.cert_key = some lck →
      tpm.identity_key_load machine_key lck = Except.error e →
      app.cert_key_load tpm machine_key =
        Except.error (MsalError.TPMFail ("Failed to load IdentityKey: " ++ e))) ∧
    (∀ s t, MsalError.ConfigError s ≠ MsalError.TPMFail t) ∧
    (∀ env sealed_prt request_tgt, app.transport_key = none →
      exchange_prt_for_prt env app tpm machine_key sealed_prt request_tgt =
        Except.error (MsalError.ConfigError transportKeyMissingMsg)) ∧
    (∀ env sealed_prt scope rr, app.transport_key = none →
      exchange_prt_for_access_token env app tpm machine_key sealed_prt scope rr =
        Except.error (MsalError.ConfigError transportKeyMissingMsg)) := by
  have hnone : app.transport_key = none →
      app.transport_key_load tpm machine_key =
        Except.error (MsalError.ConfigError transportKeyMissingMsg) := by
    intro h
    unfold BrokerClientApplication.transport_key_load
    rw [h]
  refine ⟨hnone, ?_, ?_, ?_, ?_, ?_, ?_⟩
  · intro ltk e h hload
    unfold BrokerClientApplication.transport_key_load
    simp only [h, hload]
  · intro h
    unfold BrokerClientApplication.cert_key_load
    rw [h]
  · intro lck e h hload
    unfold BrokerClientApplication.cert_key_load
    simp only [h, hload]
  · intro s t h
    exact MsalError.noConfusion h
  · intro env sealed_prt request_tgt h
    unfold exchange_prt_for_prt
    rw [hnone h]
  · intro env sealed_prt scope rr h
    unfold exchange_prt_for_access_token
    rw [hnone h]

/-- Witness for C7: on a broker with no stored handles, both accessors and
both exchange entry points fail with the respective `ConfigError`, and the
kinds are distinct. -/
theorem key_handle_error_kinds_witness :
    (appEmpty.transport_key_load tpmId mkC =
      Except.error (MsalError.ConfigError transportKeyMissingMsg)) ∧
    (appEmpty.cert_key_load tpmId mkC =
      Except.error (MsalError.ConfigError certKeyMissingMsg)) ∧
    (exchange_prt_for_prt envC4 appEmpty tpmId mkC (SealedData.mk []) true =
      Except.error (MsalError.ConfigError transportKeyMissingMsg)) ∧
    (exchange_prt_for_access_token envC4 appEmpty tpmId mkC (SealedData.mk []) [] none =
      Except.error (MsalError.ConfigError transportKeyMissingMsg)) ∧
    MsalError.ConfigError transportKeyMissingMsg ≠
      MsalError.TPMFail transportKeyMissingMsg :=
  ⟨(key_handle_error_kinds appEmpty tpmId mkC).1 rfl,
   (key_handle_error_kinds appEmpty tpmId mkC).2.2.1 rfl,
   (key_handle_error_kinds appEmpty tpmId mkC).2.2.2.2.2.1
     envC4 (SealedData.mk []) true rfl,
   (key_handle_error_kinds appEmpty tpmId mkC).2.2.2.2.2.2
     envC4 (SealedData.mk []) [] none rfl,
   (key_handle_error_kinds appEmpty tpmId mkC).2.2.2.2.1
     transportKeyMissingMsg transportKeyMissingMsg⟩

/-- C8: when the token endpoint answers a PRT acquisition with a non-success
status and a well-formed structured error body, the acquisition fails with
`AcquireTokenFailed` carrying exactly that parsed error body. -/
theorem acquire_prt_error_body (env : Env) (signed_jwt : String)
    (resp : HttpResp) (er : ErrorResponse)
    (hresp : env.prtTokenResp = Except.ok resp)
    (hfail : resp.success = false)
    (hparse : env.parseErrorResponse resp.body = some er) :
    acquire_user_prt_jwt env signed_jwt =
      Except.error (MsalError.AcquireTokenFailed er) := by
  unfold acquire_user_prt_jwt
  rw [hresp]
  simp only [hfail, if_false, Bool.false_eq_true, hparse]

/-- Witness for C8: an endpoint denying with body "EB" produces
`AcquireTokenFailed` carrying exactly that body. -/
theorem acquire_prt_error_body_witness :
    acquire_user_prt_jwt envC8fail "JWT" =
      Except.error (MsalError.AcquireTokenFailed (ErrorResponse.mk "EB")) :=
  acquire_prt_error_body envC8fail "JWT" (HttpResp.mk false "EB")
    (ErrorResponse.mk "EB") rfl rfl rfl

/-- C9: a PRT response JSON whose other fields parse and whose `tgt_ad` and
`tgt_cloud` members are absent parses successfully, with both
ticket-granting-ticket fields taking the default (empty) `TGT` value. -/
theorem prt_tgt_defaults (env : ParseEnv) (kvs : List (String × Json))
    (tt ei xei eo rt : String) (n : Nat) (skj dti ktln : Option String)
    (idv : Json) (idt : IdToken)
    (h1 : reqStr kvs "token_type" = Except.ok tt)
    (h2 : reqStr kvs "expires_in" = Except.ok ei)
    (h3 : reqStr kvs "ext_expires_in" = Except.ok xei)
    (h4 : reqStr kvs "expires_on" = Except.ok eo)
    (h5 : reqStr kvs "refresh_token" = Except.ok rt)
    (h6 : reqU64 kvs "refresh_token_expires_in" = Except.ok n)
    (h7 : optStr kvs "session_key_jwe" = Except.ok skj)
    (h8 : jlookup kvs "id_token" = some idv)
    (h9 : parseIdTokenValue env idv = Except.ok idt)
    (h10 : jlookup kvs "client_info" = none)
    (h11 : optStr kvs "device_tenant_id" = Except.ok dti)
    (h12 : jlookup kvs "tgt_ad" = none)
    (h13 : jlookup kvs "tgt_cloud" = none)
    (h14 : optStr kvs "kerberos_top_level_names" = Except.ok ktln) :
    parsePrt env (Json.obj kvs) = Except.ok
      { token_type := tt, expires_in := ei, ext_expires_in := xei,
        expires_on := eo, refresh_token := rt, refresh_token_expires_in := n,
        session_key_jwe := skj, id_token := idt,
        client_info := ClientInfo.default, device_tenant_id := dti,
        tgt_ad := TGT.default, tgt_cloud := TGT.default,
        kerberos_top_level_names := ktln } := by
  unfold parsePrt
  simp only [h1, h2, h3, h4, h5, h6, h7, h8, h9, h10, h11, h12, h13, h14]

/-- Witness for C9: the concrete response `prtFields` omits both tgt members
and parses to a PRT with default TGTs. -/
theorem prt_tgt_defaults_witness :
    (jlookup prtFields "tgt_ad" = none ∧ jlookup prtFields "tgt_cloud" = none) ∧
    parsePrt parseEnvTrivial (Json.obj prtFields) = Except.ok
      { token_type := "Bearer", expires_in := "3600", ext_expires_in := "3600",
        expires_on := "170", refresh_token := "RT",
        refresh_token_expires_in := 500, session_key_jwe := some "JWE1",
        id_token := { name := "n", oid := "o", preferred_username := none,
                      puid := none, tenant_region_scope := none, tid := "t" },
        client_info := ClientInfo.default, device_tenant_id := none,
        tgt_ad := TGT.default, tgt_cloud := TGT.default,
        kerberos_top_level_names := none } :=
  ⟨⟨rfl, rfl⟩,
   prt_tgt_defaults parseEnvTrivial prtFields "Bearer" "3600" "3600" "170" "RT"
     500 (some "JWE1") none none
     (Json.obj [("name", Json.str "n"), ("oid", Json.str "o"),
       ("tid", Json.str "t")])
     { name := "n", oid := "o", preferred_username := none, puid := none,
       tenant_region_scope := none, tid := "t" }
     rfl rfl rfl rfl rfl rfl rfl rfl rfl rfl rfl rfl rfl rfl⟩

/-- C10 counterexample: with `preferred_username` absent and an access_token
whose payload segment is not valid base64, `spn` fails with `InvalidBase64`,
not with `GeneralFailure` as the claim states for every extraction failure. -/
theorem spn_counterexample :
    UserToken.spn parseEnvTrivial tokBadB64 =
      Except.error (MsalError.InvalidBase64 "invalid base64") ∧
    MsalError.isGeneralFailure (MsalError.InvalidBase64 "invalid base64") = false := by
  constructor
  · rfl
  · rfl

/-- C10 amended: `spn` returns `preferred_username` when present; with it
absent, a missing access token and a missing or non-string `upn` claim fail
with `GeneralFailure`, while a missing payload segment, undecodable base64,
invalid UTF-8 and unparsable JSON fail with `InvalidParse`, `InvalidBase64`,
`InvalidParse` and `InvalidJson` respectively; a string `upn` claim is
returned. -/
theorem spn_amended (env : ParseEnv) (tok : UserToken) :
    (∀ u, tok.id_token.preferred_username = some u →
      UserToken.spn env tok = Except.ok u) ∧
    (tok.id_token.preferred_username = none → tok.access_token = none →
      UserToken.spn env tok =
        Except.error (MsalError.GeneralFailure "No spn available for UserToken")) ∧
    (∀ a, tok.id_token.preferred_username = none → tok.access_token = some a →
      payloadSegment a = none →
      UserToken.spn env tok =
        Except.error (MsalError.InvalidParse "Payload not present")) ∧
    (∀ a p, tok.id_token.preferred_username = none → tok.access_token = some a →
      payloadSegment a = some p → base64UrlNoPadDecode p = none →
      UserToken.spn env tok =
        Except.error (MsalError.InvalidBase64 "invalid base64")) ∧
    (∀ a p bs, tok.id_token.preferred_username = none →
      tok.access_token = some a → payloadSegment a = some p →
      base64UrlNoPadDecode p = some bs → utf8Decode bs = none →
      UserToken.spn env tok =
        Except.error (MsalError.InvalidParse "invalid utf-8 sequence")) ∧
    (∀ a p bs s2, tok.id_token.preferred_username = none →
      tok.access_token = some a → payloadSegment a = some p →
      base64UrlNoPadDecode p = some bs → utf8Decode bs = some s2 →
      env.strToJson s2 = none →
      UserToken.spn env tok = Except.error (MsalError.InvalidJson s2)) ∧
    (∀ a p bs s2 j, tok.id_token.preferred_username = none →
      tok.access_token = some a → payloadSegment a = some p →
      base64UrlNoPadDecode p = some bs → utf8Decode bs = some s2 →
      env.strToJson s2 = some j → j.get "upn" = none →
      UserToken.spn env tok =
        Except.error (MsalError.GeneralFailure "No spn available for UserToken")) ∧
    (∀ a p bs s2 j u, tok.id_token.preferred_username = none →
      tok.access_token = some a → payloadSegment a = some p →
      base64UrlNoPadDecode p = some bs → utf8Decode bs = some s2 →
      env.strToJson s2 = some j → j.get "upn" = some (Json.str u) →
      UserToken.spn env tok = Except.ok u) := by
  refine ⟨?_, ?_, ?_, ?_, ?_, ?_, ?_, ?_⟩
  · intro u h
    unfold UserToken.spn
    simp only [h]
  · intro h1 h2
    unfold UserToken.spn
    simp only [h1, h2]
  · intro a h1 h2 h3
    unfold UserToken.spn
    simp only [h1, h2, h3]
  · intro a p h1 h2 h3 h4
    unfold UserToken.spn
    simp only [h1, h2, h3, h4]
  · intro a p bs h1 h2 h3 h4 h5
    unfold UserToken.spn
    simp only [h1, h2, h3, h4, h5]
  · intro a p bs s2 h1 h2 h3 h4 h5 h6
    unfold UserToken.spn
    simp only [h1, h2, h3, h4, h5, h6]
  · intro a p bs s2 j h1 h2 h3 h4 h5 h6 h7
    unfold UserToken.spn
    simp only [h1, h2, h3, h4, h5, h6, h7]
  · intro a p bs s2 j u h1 h2 h3 h4 h5 h6 h7
    unfold UserToken.spn
    simp only [h1, h2, h3, h4, h5, h6, h7]

/-- Witness for C10 amended: the preferred-username, the missing-token
`GeneralFailure`, and the `upn`-claim cases at concrete tokens. -/
theorem spn_amended_witness :
    UserToken.spn parseEnvTrivial tokPU = Except.ok "sam@example.test" ∧
    UserToken.spn parseEnvTrivial tokNoAT =
      Except.error (MsalError.GeneralFailure "No spn available for UserToken") ∧
    UserToken.spn upnEnv tokUpn = Except.ok "upn@example.test" :=
  ⟨(spn_amended parseEnvTrivial tokPU).1 "sam@example.test" rfl,
   (spn_amended parseEnvTrivial tokNoAT).2.1 rfl rfl,
   (spn_amended upnEnv tokUpn).2.2.2.2.2.2.2 "h.QQ.t" "QQ" [65] "A"
     (Json.obj [("upn", Json.str "upn@example.test")]) "upn@example.test"
     rfl rfl rfl rfl rfl rfl rfl⟩

/-- C1: every successful PRT rotation seals, for return, a new PRT whose
session-key envelope equals the envelope of the PRT it was rotated from
(`new_prt` below is the PRT parsed from the server's decrypted response,
whatever envelope it contained; `clone_session_key` overwrites it before
sealing). -/
theorem rotation_preserves_envelope (env : Env) (app : BrokerClientApplication)
    (tpm : Tpm) (machine_key : MachineKey) (sealed_prt : SealedData)
    (request_tgt : Bool) (out : SealedData)
    (h : exchange_prt_for_prt env app tpm machine_key sealed_prt request_tgt =
      Except.ok out) :
    ∃ transport_key prt new_prt,
      app.transport_key_load tpm machine_key = Except.ok transport_key ∧
      unseal_user_prt tpm transport_key sealed_prt = Except.ok prt ∧
      seal_user_prt tpm transport_key (prt.clone_session_key new_prt) =
        Except.ok out ∧
      (prt.clone_session_key new_prt).session_key_jwe = prt.session_key_jwe ∧
      (∀ q, (prt.clone_session_key q).session_key_jwe = prt.session_key_jwe) := by
  unfold exchange_prt_for_prt at h
  split at h
  next e htk => exact Except.noConfusion h
  next transport_key htk =>
  split at h
  next e hun => exact Except.noConfusion h
  next prt hun =>
  split at h
  next e hsk => exact Except.noConfusion h
  next session_key hsk =>
  split at h
  next e hn => exact Except.noConfusion h
  next nonce hn =>
  split at h
  next e hsig => exact Except.noConfusion h
  next signed hsig =>
  split at h
  next e hresp => exact Except.noConfusion h
  next resp hresp =>
  split at h
  · split at h
    next e hjwe => exact Except.noConfusion h
    next jwe hjwe =>
    split at h
    next err hdec => exact Except.noConfusion h
    next bytes hdec =>
    split at h
    next hutf => exact Except.noConfusion h
    next s2 hutf =>
    split at h
    next hjson => exact Except.noConfusion h
    next j hjson =>
    split at h
    next e hparse => exact Except.noConfusion h
    next new_prt hparse =>
      exact ⟨transport_key, prt, new_prt, htk, hun, h, rfl, fun q => rfl⟩
  · split at h
    next er her => exact Except.noConfusion h
    next her => exact Except.noConfusion h

/-- Witness for C1: a concrete rotation in which the server's decrypted
response (`prtRot`) carries no envelope, yet the sealed result holds the old
PRT's envelope `some "JWE1"`. -/
theorem rotation_preserves_envelope_witness :
    (exchange_prt_for_prt envRot appC tpmFull mkC
        (SealedData.mk (encodePrt samplePrt)) true =
      Except.ok (SealedData.mk (encodePrt (samplePrt.clone_session_key prtRot)))) ∧
    (samplePrt.clone_session_key prtRot).session_key_jwe = some "JWE1" ∧
    prtRot.session_key_jwe = none ∧
    ∃ transport_key prt new_prt,
      appC.transport_key_load tpmFull mkC = Except.ok transport_key ∧
      unseal_user_prt tpmFull transport_key
        (SealedData.mk (encodePrt samplePrt)) = Except.ok prt ∧
      seal_user_prt tpmFull transport_key (prt.clone_session_key new_prt) =
        Except.ok (SealedData.mk (encodePrt (samplePrt.clone_session_key prtRot))) ∧
      (prt.clone_session_key new_prt).session_key_jwe = prt.session_key_jwe ∧
      (∀ q, (prt.clone_session_key q).session_key_jwe = prt.session_key_jwe) :=
  ⟨rfl, rfl, rfl,
   rotation_preserves_envelope envRot appC tpmFull mkC
     (SealedData.mk (encodePrt samplePrt)) true
     (SealedData.mk (encodePrt (samplePrt.clone_session_key prtRot))) rfl⟩

/-- A successful internal PRT-to-access-token exchange returns exactly the
`UserToken` parsed from the decrypted response body. -/
theorem exchange_internal_ok_parse (env : Env) (app : BrokerClientApplication)
    (tpm : Tpm) (machine_key : MachineKey) (prt : PrimaryRefreshToken)
    (scope : List String) (transport_key : MsOapxbcRsaKey)
    (session_key : SessionKey) (rr : Option String) (tok : UserToken)
    (h : exchange_prt_for_access_token_internal env app tpm machine_key prt
      scope transport_key session_key rr = Except.ok tok) :
    ∃ j, parseUserToken env.parse j = Except.ok tok := by
  unfold exchange_prt_for_access_token_internal at h
  split at h
  next e hn => exact Except.noConfusion h
  next nonce hn =>
  split at h
  next e hsig => exact Except.noConfusion h
  next signed hsig =>
  split at h
  next e hresp => exact Except.noConfusion h
  next resp hresp =>
  split at h
  · split at h
    next e hjwe => exact Except.noConfusion h
    next jwe hjwe =>
    split at h
    next err hdec => exact Except.noConfusion h
    next bytes hdec =>
    split at h
    next hutf => exact Except.noConfusion h
    next s2 hutf =>
    split at h
    next hjson => exact Except.noConfusion h
    next j hjson =>
    split at h
    next token hparse =>
      have htok := (Except.ok.injEq _ _).mp h
      exact ⟨j, by rw [← htok]; exact hparse⟩
    next e hparse => exact Except.noConfusion h
  · split at h
    next er her => exact Except.noConfusion h
    next her => exact Except.noConfusion h

/-- C4 counterexample: `exchange_prt_for_access_token` on a sealed PRT whose
client-info pair is non-empty succeeds and returns the `UserToken` parsed
from the response unchanged — its client-info is the response's (here the
default), not the PRT's, and no sealed PRT is attached. -/
theorem token_attachment_counterexample :
    (exchange_prt_for_access_token envC4 appC tpmFull mkC
      (SealedData.mk (encodePrt samplePrt)) [] none = Except.ok utParsed) ∧
    (unseal_user_prt tpmFull (MsOapxbcRsaKey.mk 7)
      (SealedData.mk (encodePrt samplePrt)) = Except.ok samplePrt) ∧
    utParsed.client_info ≠ samplePrt.client_info ∧
    utParsed.prt = none :=
  ⟨rfl, rfl, by decide, rfl⟩

/-- C4 amended: the two broker `acquire_token_by_*` paths attach the PRT's
client-info pair and a freshly sealed copy of the PRT onto the returned
`UserToken`; `exchange_prt_for_access_token` instead passes through, and
returns unchanged, the `UserToken` parsed from the decrypted response — its
client-info and prt fields are whatever the response carried, and the broker
neither overwrites the client-info with the PRT's nor attaches a fresh
sealed copy of the PRT it used. -/
theorem token_attachment (env : Env) (app : BrokerClientApplication) (tpm : Tpm)
    (machine_key : MachineKey) :
    (∀ username password scopes tok,
      acquire_token_by_username_password env app tpm machine_key username
        password scopes = Except.ok tok →
      ∃ prt transport_key sealed,
        acquire_user_prt_by_username_password_internal env app tpm machine_key
          username password = Except.ok prt ∧
        app.transport_key_load tpm machine_key = Except.ok transport_key ∧
        seal_user_prt tpm transport_key prt = Except.ok sealed ∧
        tok.client_info = prt.client_info ∧ tok.prt = some sealed) ∧
    (∀ refresh_token scopes tok,
      acquire_token_by_refresh_token env app tpm machine_key refresh_token
        scopes = Except.ok tok →
      ∃ prt transport_key sealed,
        acquire_user_prt_by_refresh_token_internal env app tpm machine_key
          refresh_token = Except.ok prt ∧
        app.transport_key_load tpm machine_key = Except.ok transport_key ∧
        seal_user_prt tpm transport_key prt = Except.ok sealed ∧
        tok.client_info = prt.client_info ∧ tok.prt = some sealed) ∧
    (∀ sealed_prt scope rr tok,
      exchange_prt_for_access_token env app tpm machine_key sealed_prt scope
        rr = Except.ok tok →
      ∃ transport_key prt session_key,
        app.transport_key_load tpm machine_key = Except.ok transport_key ∧
        unseal_user_prt tpm transport_key sealed_prt = Except.ok prt ∧
        prt.session_key env = Except.ok session_key ∧
        exchange_prt_for_access_token_internal env app tpm machine_key prt
          scope transport_key session_key rr = Except.ok tok ∧
        ∃ j, parseUserToken env.parse j = Except.ok tok) := by
  refine ⟨?_, ?_, ?_⟩
  · intro username password scopes tok h
    unfold acquire_token_by_username_password at h
    split at h
    next e hacq => exact Except.noConfusion h
    next prt hacq =>
    split at h
    next e htk => exact Except.noConfusion h
    next transport_key htk =>
    split at h
    next e hsk => exact Except.noConfusion h
    next session_key hsk =>
    split at h
    next e hex => exact Except.noConfusion h
    next token hex =>
    split at h
    next e hseal => exact Except.noConfusion h
    next sealed hseal =>
      have htok := (Except.ok.injEq _ _).mp h
      exact ⟨prt, transport_key, sealed, hacq, htk, hseal,
        by rw [← htok], by rw [← htok]⟩
  · intro refresh_token scopes tok h
    unfold acquire_token_by_refresh_token at h
    split at h
    next e hacq => exact Except.noConfusion h
    next prt hacq =>
    split at h
    next e htk => exact Except.noConfusion h
    next transport_key htk =>
    split at h
    next e hsk => exact Except.noConfusion h
    next session_key hsk =>
    split at h
    next e hex => exact Except.noConfusion h
    next token hex =>
    split at h
    next e hseal => exact Except.noConfusion h
    next sealed hseal =>
      have htok := (Except.ok.injEq _ _).mp h
      exact ⟨prt, transport_key, sealed, hacq, htk, hseal,
        by rw [← htok], by rw [← htok]⟩
  · intro sealed_prt scope rr tok h
    unfold exchange_prt_for_access_token at h
    split at h
    next e htk => exact Except.noConfusion h
    next transport_key htk =>
    split at h
    next e hun => exact Except.noConfusion h
    next prt hun =>
    split at h
    next e hsk => exact Except.noConfusion h
    next session_key hsk =>
      exact ⟨transport_key, prt, session_key, htk, hun, hsk, h,
        exchange_internal_ok_parse env app tpm machine_key prt scope
          transport_key session_key rr tok h⟩

/-- Witness for C4 amended: a concrete broker username/password acquisition
attaches the PRT's client-info and sealed PRT, and a concrete sealed-PRT
exchange passes through exactly the token parsed from the response. -/
theorem token_attachment_witness :
    (acquire_token_by_username_password envC4 appC tpmFull mkC "u" "p" [] =
      Except.ok { utParsed with
                  client_info := prtW.client_info,
                  prt := some (SealedData.mk (encodePrt prtW)) }) ∧
    (∃ prt transport_key sealed,
      acquire_user_prt_by_username_password_internal envC4 appC tpmFull mkC
        "u" "p" = Except.ok prt ∧
      appC.transport_key_load tpmFull mkC = Except.ok transport_key ∧
      seal_user_prt tpmFull transport_key prt = Except.ok sealed ∧
      ({ utParsed with
         client_info := prtW.client_info,
         prt := some (SealedData.mk (encodePrt prtW)) } : UserToken).client_info =
        prt.client_info ∧
      ({ utParsed with
         client_info := prtW.client_info,
         prt := some (SealedData.mk (encodePrt prtW)) } : UserToken).prt =
        some sealed) ∧
    (∃ transport_key prt session_key,
      appC.transport_key_load tpmFull mkC = Except.ok transport_key ∧
      unseal_user_prt tpmFull transport_key
        (SealedData.mk (encodePrt samplePrt)) = Except.ok prt ∧
      prt.session_key envC4 = Except.ok session_key ∧
      exchange_prt_for_access_token_internal envC4 appC tpmFull mkC prt []
        transport_key session_key none = Except.ok utParsed ∧
      ∃ j, parseUserToken envC4.parse j = Except.ok utParsed) :=
  ⟨rfl,
   (token_attachment envC4 appC tpmFull mkC).1 "u" "p" []
     { utParsed with
       client_info := prtW.client_info,
       prt := some (SealedData.mk (encodePrt prtW)) } rfl,
   (token_attachment envC4 appC tpmFull mkC).2.2
     (SealedData.mk (encodePrt samplePrt)) [] none utParsed rfl⟩

/-- C5 counterexample: when CSR creation fails after key creation,
`enroll_device` returns an error, yet the broker's held transport-key handle
has already been replaced by the newly created one. -/
theorem enroll_state_counterexample :
    ((enroll_device envC4 appC tpmCsrFail mkC utParsed attrsC).2 =
      Except.error (MsalError.TPMFail "Failed creating CSR: csr boom")) ∧
    (enroll_device envC4 appC tpmCsrFail mkC utParsed attrsC).1.transport_key ≠
      appC.transport_key :=
  ⟨rfl, by decide⟩

/-- C5 amended: on success both held handles equal the returned ones; on
failure the held cert-key handle is unchanged, and the held transport-key
handle is either unchanged (when failure precedes transport-key creation) or
already replaced by the newly created transport key — it is not restored. -/
theorem enroll_state_update (env : Env) (app : BrokerClientApplication)
    (tpm : Tpm) (machine_key : MachineKey) (token : UserToken)
    (attrs : EnrollAttrs) :
    (∀ app2 tk ck did,
      enroll_device env app tpm machine_key token attrs =
        (app2, Except.ok (tk, ck, did)) →
      app2.transport_key = some tk ∧ app2.cert_key = some ck) ∧
    (∀ app2 e,
      enroll_device env app tpm machine_key token attrs =
        (app2, Except.error e) →
      app2.cert_key = app.cert_key ∧
      (app2.transport_key = app.transport_key ∨
        ∃ created, tpm.msoapxbc_rsa_key_create machine_key = Except.ok created ∧
          app2.transport_key = some created)) := by
  constructor
  · intro app2 tk ck did h
    unfold enroll_device at h
    split at h
    next e h1 =>
      have h2 := (Prod.mk.injEq _ _ _ _).mp h
      exact Except.noConfusion h2.2
    next lck h1 =>
    split at h
    next e h2 =>
      have h3 := (Prod.mk.injEq _ _ _ _).mp h
      exact Except.noConfusion h3.2
    next ltk h2 =>
    split at h
    next e h3 =>
      have h4 := (Prod.mk.injEq _ _ _ _).mp h
      exact Except.noConfusion h4.2
    next csr h3 =>
    split at h
    next e h4 =>
      have h5 := (Prod.mk.injEq _ _ _ _).mp h
      exact Except.noConfusion h5.2
    next tkey h4 =>
    split at h
    next e h5 =>
      have h6 := (Prod.mk.injEq _ _ _ _).mp h
      exact Except.noConfusion h6.2
    next der h5 =>
    split at h
    next e h6 =>
      have h7 := (Prod.mk.injEq _ _ _ _).mp h
      exact Except.noConfusion h7.2
    next rsa h6 =>
    split at h
    next h7 =>
      have h8 := (Prod.mk.injEq _ _ _ _).mp h
      exact Except.noConfusion h8.2
    next atok h7 =>
    split at h
    next e h8 =>
      have h9 := (Prod.mk.injEq _ _ _ _).mp h
      exact Except.noConfusion h9.2
    next cert did2 h8 =>
    split at h
    next e h9 =>
      have h10 := (Prod.mk.injEq _ _ _ _).mp h
      exact Except.noConfusion h10.2
    next cert_der h9 =>
    split at h
    next e h10 =>
      have h11 := (Prod.mk.injEq _ _ _ _).mp h
      exact Except.noConfusion h11.2
    next nlck h10 =>
      have h11 := (Prod.mk.injEq _ _ _ _).mp h
      have h12 := (Except.ok.injEq _ _).mp h11.2
      have h13 := (Prod.mk.injEq _ _ _ _).mp h12
      have h14 := (Prod.mk.injEq _ _ _ _).mp h13.2
      refine ⟨?_, ?_⟩
      · rw [← h11.1, ← h13.1]
      · rw [← h11.1, ← h14.1]
  · intro app2 e h
    unfold enroll_device at h
    split at h
    next e2 h1 =>
      have h2 := (Prod.mk.injEq _ _ _ _).mp h
      exact ⟨by rw [← h2.1], Or.inl (by rw [← h2.1])⟩
    next lck h1 =>
    split at h
    next e2 h2 =>
      have h3 := (Prod.mk.injEq _ _ _ _).mp h
      exact ⟨by rw [← h3.1], Or.inl (by rw [← h3.1])⟩
    next ltk h2 =>
    split at h
    next e2 h3 =>
      have h4 := (Prod.mk.injEq _ _ _ _).mp h
      exact ⟨by rw [← h4.1], Or.inr ⟨ltk, h2, by rw [← h4.1]⟩⟩
    next csr h3 =>
    split at h
    next e2 h4 =>
      have h5 := (Prod.mk.injEq _ _ _ _).mp h
      exact ⟨by rw [← h5.1], Or.inr ⟨ltk, h2, by rw [← h5.1]⟩⟩
    next tkey h4 =>
    split at h
    next e2 h5 =>
      have h6 := (Prod.mk.injEq _ _ _ _).mp h
      exact ⟨by rw [← h6.1], Or.inr ⟨ltk, h2, by rw [← h6.1]⟩⟩
    next der h5 =>
    split at h
    next e2 h6 =>
      have h7 := (Prod.mk.injEq _ _ _ _).mp h
      exact ⟨by rw [← h7.1], Or.inr ⟨ltk, h2, by rw [← h7.1]⟩⟩
    next rsa h6 =>
    split at h
    next h7 =>
      have h8 := (Prod.mk.injEq _ _ _ _).mp h
      exact ⟨by rw [← h8.1], Or.inr ⟨ltk, h2, by rw [← h8.1]⟩⟩
    next atok h7 =>
    split at h
    next e2 h8 =>
      have h9 := (Prod.mk.injEq _ _ _ _).mp h
      exact ⟨by rw [← h9.1], Or.inr ⟨ltk, h2, by rw [← h9.1]⟩⟩
    next cert did2 h8 =>
    split at h
    next e2 h9 =>
      have h10 := (Prod.mk.injEq _ _ _ _).mp h
      exact ⟨by rw [← h10.1], Or.inr ⟨ltk, h2, by rw [← h10.1]⟩⟩
    next cert_der h9 =>
    split at h
    next e2 h10 =>
      have h11 := (Prod.mk.injEq _ _ _ _).mp h
      exact ⟨by rw [← h11.1], Or.inr ⟨ltk, h2, by rw [← h11.1]⟩⟩
    next nlck h10 =>
      have h11 := (Prod.mk.injEq _ _ _ _).mp h
      exact Except.noConfusion h11.2

/-- Witness for C5 amended: a fully successful enrollment stores exactly the
returned transport and cert handles on the broker. -/
theorem enroll_state_update_witness :
    (enroll_device envEnroll appC tpmFull mkC utParsed attrsC =
      ({ transport_key := some (LoadableMsOapxbcRsaKey.mk 11),
         cert_key := some (LoadableIdentityKey.mk 12) },
       Except.ok (LoadableMsOapxbcRsaKey.mk 11, LoadableIdentityKey.mk 12,
         "device-1234"))) ∧
    (({ transport_key := some (LoadableMsOapxbcRsaKey.mk 11),
        cert_key := some (LoadableIdentityKey.mk 12) } :
          BrokerClientApplication).transport_key =
        some (LoadableMsOapxbcRsaKey.mk 11) ∧
      ({ transport_key := some (LoadableMsOapxbcRsaKey.mk 11),
         cert_key := some (LoadableIdentityKey.mk 12) } :
           BrokerClientApplication).cert_key =
         some (LoadableIdentityKey.mk 12)) :=
  ⟨rfl,
   (enroll_state_update envEnroll appC tpmFull mkC utParsed attrsC).1
     { transport_key := some (LoadableMsOapxbcRsaKey.mk 11),
       cert_key := some (LoadableIdentityKey.mk 12) }
     (LoadableMsOapxbcRsaKey.mk 11) (LoadableIdentityKey.mk 12) "device-1234"
     rfl⟩

end Msal
